import Mathlib

/-!
Verification of the placeholder-resolution and multi-repository action
execution engine of a GitHub repository-management tool.

The Python source (src/action_processing.py, src/github_utils.py) is
shallowly embedded below.  External collaborators (the PyGithub client,
the `re`, `json`, `yaml` and `fnmatch` libraries) are modelled as an
oracle structure `Host` whose fields are deterministic functions; the
repository's own functions are translated directly.  Machine-level
details that cannot influence the verified claims (UTF-8 decoding,
Unicode-aware lowercasing and whitespace beyond ASCII) are approximated
and noted at their definition sites.
-/

namespace RepoTool

/-! ## Python-style string helpers -/

theorem string_mk_toList (s : String) : String.mk s.toList = s := by
  cases s; rfl

/-- Python truthiness of an `Optional[str]`: `None` and `""` are falsy. -/
def optStrTruthy : Option String → Bool
  | some s => s ≠ ""
  | none => false

/-- Python `str(x)` for an `Optional[str]` interpolated into an f-string:
`None` prints as `"None"`. -/
def pyShowOpt : Option String → String
  | some s => s
  | none => "None"

/-- Python `str(b)` for an `Optional[bool]` interpolated into an f-string. -/
def pyShowOptBool : Option Bool → String
  | some true => "True"
  | some false => "False"
  | none => "None"

/-- The whitespace class used by Python `str.strip()` and (restricted to
ASCII) by the regex `\s`. -/
def pySpaceChar (c : Char) : Bool :=
  c = ' ' || c = '\t' || c = '\n' || c = '\r' || c = '\x0b' || c = '\x0c'

/-- Python `s.strip(chars)` generalised: drop characters satisfying `p`
from both ends. -/
def pyStripWith (p : Char → Bool) (s : String) : String :=
  String.mk (((s.toList.dropWhile p).reverse.dropWhile p).reverse)

/-- Python `s.strip()`. -/
def pyStrip (s : String) : String := pyStripWith pySpaceChar s

/-- Python `s.strip("/")`. -/
def pyStripSlash (s : String) : String := pyStripWith (fun c => c = '/') s

/-- Left-to-right scan deciding Python `sub in s` on character lists. -/
def containsAux (sub : List Char) : List Char → Bool
  | [] => sub.isEmpty
  | c :: cs => sub.isPrefixOf (c :: cs) || containsAux sub cs

/-- Python `sub in s` (substring containment). -/
def strContains (s sub : String) : Bool :=
  containsAux sub.toList s.toList

/-- ASCII lowercase of one character. -/
def pyLowerChar (c : Char) : Char :=
  if 'A' ≤ c ∧ c ≤ 'Z' then Char.ofNat (c.toNat + 32) else c

/-- Python `s.lower()` (ASCII approximation of `str.lower`). -/
def pyLower (s : String) : String := String.mk (s.toList.map pyLowerChar)

/-- Split scan for `str.split(sep)` with a non-empty separator.  Fuel
keeps the recursion structural; `fuel = l.length` suffices. -/
def splitScanF (sep : List Char) : Nat → List Char → List Char → List String
  | _, cur, [] => [String.mk cur.reverse]
  | 0, cur, l => [String.mk (cur.reverse ++ l)]
  | fuel + 1, cur, c :: cs =>
    if sep.isPrefixOf (c :: cs) then
      String.mk cur.reverse :: splitScanF sep fuel [] ((c :: cs).drop sep.length)
    else splitScanF sep fuel (c :: cur) cs

/-- Python `s.split(sep)` for a non-empty separator (e.g. the dotted
placeholder paths split on `"."`). -/
def pySplit (s sep : String) : List String :=
  if sep.toList = [] then [s]
  else splitScanF sep.toList s.toList.length [] s.toList

/-- Python `s.startswith(pre)`. -/
def pyStartsWith (s pre : String) : Bool :=
  pre.toList.isPrefixOf s.toList

/-- Python `s.endswith(suf)`. -/
def pyEndsWith (s suf : String) : Bool :=
  suf.toList.isSuffixOf s.toList

/-- Python `"\n".join(lines)`. -/
def joinLines (lines : List String) : String := String.intercalate "\n" lines

/-- Python `repr` of a list of strings, e.g. `[\x27a\x27, \x27b\x27]`,
as produced by interpolating a `list[str]` into an f-string. -/
def pyReprStrList (l : List String) : String :=
  "[" ++ String.intercalate ", " (l.map (fun s => "\x27" ++ s ++ "\x27")) ++ "]"

/-! ## Python `str.replace`

`update_file` performs literal search/replace with `str.replace`; the
scan below mirrors its left-to-right non-overlapping semantics.  A fuel
argument (initialised to the string length, an upper bound on the number
of scan steps) keeps the definition structurally recursive so that it
reduces inside the kernel. -/

def replaceScanF (old new : List Char) (firstOnly : Bool) : Nat → List Char → List Char
  | _, [] => []
  | 0, l => l
  | fuel + 1, c :: cs =>
    if old.isPrefixOf (c :: cs) then
      if firstOnly then new ++ (c :: cs).drop old.length
      else new ++ replaceScanF old new firstOnly fuel ((c :: cs).drop old.length)
    else c :: replaceScanF old new firstOnly fuel cs

/-- Python `s.replace(old, new)` (when `replaceAll`) or
`s.replace(old, new, 1)` (otherwise), including the empty-`old`
behaviour of inserting `new` at every character boundary. -/
def pyReplace (s old new : String) (replaceAll : Bool) : String :=
  if old.toList = [] then
    if replaceAll then
      String.mk (new.toList ++ (s.toList.map (fun c => c :: new.toList)).flatten)
    else String.mk (new.toList ++ s.toList)
  else String.mk (replaceScanF old.toList new.toList (!replaceAll) s.toList.length s.toList)

theorem replaceScanF_of_not_contains (old new : List Char) (b : Bool) :
    ∀ (fuel : Nat) (l : List Char), containsAux old l = false →
      replaceScanF old new b fuel l = l := by
  intro fuel
  induction fuel with
  | zero => intro l _; cases l <;> rfl
  | succ n ih =>
    intro l h
    cases l with
    | nil => rfl
    | cons c cs =>
      simp only [containsAux, Bool.or_eq_false_iff] at h
      obtain ⟨hpre, htail⟩ := h
      simp only [replaceScanF, hpre, Bool.false_eq_true, if_false]
      rw [ih cs htail]

/-- A literal replacement whose needle does not occur leaves the text
unchanged (Python `s.replace(old, new)` with `old not in s`). -/
theorem pyReplace_of_not_contains (s old new : String) (b : Bool)
    (hne : old ≠ "") (h : strContains s old = false) :
    pyReplace s old new b = s := by
  have hol : ¬ old.toList = [] := by
    intro hnil
    apply hne
    have hmk : String.mk old.toList = String.mk [] := by rw [hnil]
    exact hmk
  unfold pyReplace
  rw [if_neg hol, replaceScanF_of_not_contains _ _ _ _ _ h]
  exact string_mk_toList s

/-! ## The template substitution engine

Source: `process_placeholders_in_string` (src/action_processing.py,
lines 12-26).  The engine is `re.sub(r"\{\{\s*([^}\s]+)\s*\}\}", f, text)`
where `f` returns `resolved_placeholders.get(name, whole_match)`.

The regex scan is deterministic: after `\x7b\x7b` the engine greedily
skips whitespace, reads a maximal non-empty run of characters that are
neither `\x7d` nor whitespace, skips whitespace again and requires
`\x7d\x7d`.  No backtracking alternative can succeed where this greedy
pass fails, because the name class excludes both `\x7d` and whitespace,
so shortening a greedy run only moves a required character onto a
position that cannot match it.  `parseSegsF` splits a text into literal
characters and matched tokens exactly as the non-overlapping
left-to-right `re.sub` scan does, and the substitution renders each
segment.

The placeholder map is an association list of `String × Option String`
(Python dict values here are `str` or, for the injected `file_path`
key, possibly `None`); the most recent binding of a key shadows older
ones, mirroring dict assignment. -/

/-- A character allowed inside a token name: `[^}\s]`. -/
def nameChar (c : Char) : Bool := c ≠ '}' && !(pySpaceChar c)

/-- One segment of the scanned text: a literal character or a matched
token (with the exact matched text and the captured name). -/
inductive Seg where
  | lit (c : Char)
  | tok (consumed : List Char) (name : String)
  deriving Repr, DecidableEq

/-- Try to match the token regex at the head of `l`.  On success return
the consumed characters, the captured name, and the rest of the input. -/
def matchToken (l : List Char) : Option (List Char × String × List Char) :=
  if l.take 2 = ['{', '{'] then
    let r := l.drop 2
    let ws1 := r.takeWhile pySpaceChar
    let r1 := r.dropWhile pySpaceChar
    let nm := r1.takeWhile nameChar
    let r2 := r1.dropWhile nameChar
    if nm = [] then none
    else
      let ws2 := r2.takeWhile pySpaceChar
      let r3 := r2.dropWhile pySpaceChar
      if r3.take 2 = ['}', '}'] then
        some ('{' :: '{' :: (ws1 ++ nm ++ ws2 ++ ['}', '}']), String.mk nm, r3.drop 2)
      else none
  else none

theorem matchToken_spec (l con : List Char) (nm : String) (rest : List Char)
    (h : matchToken l = some (con, nm, rest)) :
    con ++ rest = l ∧ rest.length < l.length := by
  unfold matchToken at h
  by_cases h2 : l.take 2 = ['{', '{']
  · rw [if_pos h2] at h
    simp only at h
    by_cases hnm : ((l.drop 2).dropWhile pySpaceChar).takeWhile nameChar = []
    · rw [if_pos hnm] at h; cases h
    · rw [if_neg hnm] at h
      by_cases h3 : ((((l.drop 2).dropWhile pySpaceChar).dropWhile nameChar).dropWhile
          pySpaceChar).take 2 = ['}', '}']
      · rw [if_pos h3] at h
        simp only [Option.some.injEq, Prod.mk.injEq] at h
        obtain ⟨hcon, -, hrest⟩ := h
        set r := l.drop 2 with hr
        set r1 := r.dropWhile pySpaceChar with hr1
        set r2 := r1.dropWhile nameChar with hr2
        set r3 := r2.dropWhile pySpaceChar with hr3
        have e0 : l.take 2 ++ l.drop 2 = l := List.take_append_drop 2 l
        have e1 : r.takeWhile pySpaceChar ++ r1 = r :=
          List.takeWhile_append_dropWhile pySpaceChar r
        have e2 : r1.takeWhile nameChar ++ r2 = r1 :=
          List.takeWhile_append_dropWhile nameChar r1
        have e3 : r2.takeWhile pySpaceChar ++ r3 = r2 :=
          List.takeWhile_append_dropWhile pySpaceChar r2
        have e4 : r3.take 2 ++ r3.drop 2 = r3 := List.take_append_drop 2 r3
        constructor
        · rw [← hcon, ← hrest]
          have : ('{' :: '{' :: (r.takeWhile pySpaceChar ++ r1.takeWhile nameChar ++
              r2.takeWhile pySpaceChar ++ ['}', '}'])) ++ r3.drop 2 =
              '{' :: '{' :: (r.takeWhile pySpaceChar ++ (r1.takeWhile nameChar ++
              (r2.takeWhile pySpaceChar ++ (['}', '}'] ++ r3.drop 2)))) := by
            simp [List.append_assoc]
          rw [this]
          rw [show ['}', '}'] ++ r3.drop 2 = r3 by rw [← h3]; exact e4]
          rw [e3, e2, e1]
          rw [← e0, h2]
          rfl
        · have l3 : r3.length ≤ r2.length := (List.dropWhile_sublist _).length_le
          have l2 : r2.length < r1.length := by
            conv_rhs => rw [← e2]
            rw [List.length_append]
            have : 0 < (r1.takeWhile nameChar).length := List.length_pos.mpr hnm
            omega
          have l1 : r1.length ≤ r.length := (List.dropWhile_sublist _).length_le
          have l0 : r.length = l.length - 2 := List.length_drop 2 l
          have hl2 : 2 ≤ l.length := by
            have := congrArg List.length h2
            rw [List.length_take] at this
            simp only [List.length_cons, List.length_nil] at this
            omega
          have h3len : 2 ≤ r3.length := by
            have := congrArg List.length h3
            rw [List.length_take] at this
            simp only [List.length_cons, List.length_nil] at this
            omega
          have hrl : rest.length = r3.length - 2 := by
            rw [← hrest]; exact List.length_drop 2 r3
          omega
      · rw [if_neg h3] at h; cases h
  · rw [if_neg h2] at h; cases h

/-- Scan the text into segments exactly as the non-overlapping
left-to-right `re.sub` pass does.  Fuel-driven structural recursion;
`fuel = l.length` always suffices because every step consumes at least
one character. -/
def parseSegsF : Nat → List Char → List Seg
  | _, [] => []
  | 0, _ :: _ => []
  | fuel + 1, c :: cs =>
    match matchToken (c :: cs) with
    | some (con, nm, rest) => Seg.tok con nm :: parseSegsF fuel rest
    | none => Seg.lit c :: parseSegsF fuel cs

def parseSegs (l : List Char) : List Seg := parseSegsF l.length l

/-- The exact text a segment stands for. -/
def segText : Seg → List Char
  | Seg.lit c => [c]
  | Seg.tok con _ => con

/-- Dict lookup on the association-list map (first binding wins,
i.e. the most recently assigned one). -/
def dget (m : List (String × Option String)) (k : String) : Option (Option String) :=
  (m.find? (fun kv => kv.1 = k)).map (fun kv => kv.2)

/-- Dict assignment: the new binding shadows any previous one. -/
def dset (m : List (String × Option String)) (k : String) (v : Option String) :
    List (String × Option String) :=
  (k, v) :: m

/-- Dict deletion (`del m[k]`). -/
def ddel (m : List (String × Option String)) (k : String) :
    List (String × Option String) :=
  m.filter (fun kv => kv.1 ≠ k)

/-- Render one segment through the replacement callback
`resolved_placeholders.get(name, match.group(0))`.  A token bound to
`None` is replaced by the empty string: CPython (checked on 3.11)
special-cases a `None` return from an `re.sub` callback as an empty
piece instead of raising, so the defensive `try/except` around the
substitution never fires for string inputs. -/
def renderSeg (m : List (String × Option String)) : Seg → List Char
  | Seg.lit c => [c]
  | Seg.tok con nm =>
    match dget m nm with
    | some (some v) => v.toList
    | some none => []
    | none => con

/-- Source: `process_placeholders_in_string`.  Substitute every matched
token, leaving unknown tokens as their original text. -/
def process_placeholders_in_string (text : String)
    (resolved_placeholders : List (String × Option String)) : String :=
  String.mk ((parseSegs text.toList).map (renderSeg resolved_placeholders)).flatten

/-- The names of the tokens the scan finds in a text. -/
def tokenNames (s : String) : List String :=
  (parseSegs s.toList).filterMap (fun seg =>
    match seg with
    | Seg.tok _ nm => some nm
    | Seg.lit _ => none)

/-- The syntactic condition of the idempotence claim: no token of `T`
is bound in `M` to a value that itself contains a `\x7b\x7b...\x7d\x7d`
token. -/
def specIdemCond (t : String) (m : List (String × Option String)) : Bool :=
  (tokenNames t).all (fun nm =>
    match dget m nm with
    | some (some v) => tokenNames v = []
    | some none => true
    | none => true)

theorem parseSegsF_join (fuel : Nat) :
    ∀ l : List Char, l.length ≤ fuel →
      ((parseSegsF fuel l).map segText).flatten = l := by
  induction fuel with
  | zero =>
    intro l hl
    have hnil : l = [] := List.eq_nil_of_length_eq_zero (Nat.le_zero.mp hl)
    subst hnil; rfl
  | succ n ih =>
    intro l hl
    cases l with
    | nil => rfl
    | cons c cs =>
      simp only [parseSegsF]
      match hm : matchToken (c :: cs) with
      | some (con, nm, rest) =>
        obtain ⟨happ, hlen⟩ := matchToken_spec _ _ _ _ hm
        simp only [List.map_cons, List.flatten_cons, segText]
        rw [ih rest (by simp only [List.length_cons] at hl hlen ⊢; omega), happ]
      | none =>
        simp only [List.map_cons, List.flatten_cons, segText]
        rw [ih cs (by simp only [List.length_cons] at hl; omega)]
        rfl

theorem parseSegs_join (l : List Char) : ((parseSegs l).map segText).flatten = l :=
  parseSegsF_join l.length l (Nat.le_refl _)

/-- If every token of a text is unknown to the map, substitution leaves
the text unchanged. -/
theorem process_placeholders_fixed (s : String) (m : List (String × Option String))
    (h : ∀ nm ∈ tokenNames s, dget m nm = none) :
    process_placeholders_in_string s m = s := by
  unfold process_placeholders_in_string
  have hsegs : ∀ seg ∈ parseSegs s.toList, renderSeg m seg = segText seg := by
    intro seg hseg
    match seg with
    | Seg.lit c => rfl
    | Seg.tok con nm =>
      have hnm : nm ∈ tokenNames s := by
        unfold tokenNames
        exact List.mem_filterMap.mpr ⟨Seg.tok con nm, hseg, rfl⟩
      simp only [renderSeg, h nm hnm]
      rfl
  rw [List.map_congr_left hsegs, parseSegs_join]
  exact string_mk_toList s

theorem mem_flatten_infix {α : Type} (L : List (List α)) (x : List α) (h : x ∈ L) :
    x <:+: L.flatten := by
  induction L with
  | nil => cases h
  | cons hd tl ih =>
    rcases List.mem_cons.mp h with heq | hmem
    · subst heq
      exact ⟨[], tl.flatten, by simp⟩
    · obtain ⟨s, t, hst⟩ := ih hmem
      exact ⟨hd ++ s, t, by rw [List.flatten_cons, ← hst]; simp⟩

/-- Claim C7: every token `\x7b\x7bname\x7d\x7d` of `T` whose name is
not a key of the map renders to exactly its own original text, and that
text therefore appears verbatim in the substituted output — unknown
tokens are neither blanked nor turned into an error. -/
theorem c7_unknown_tokens_preserved (t : String) (m : List (String × Option String))
    (con : List Char) (nm : String)
    (hseg : Seg.tok con nm ∈ parseSegs t.toList) (hunk : dget m nm = none) :
    renderSeg m (Seg.tok con nm) = con ∧
    con <:+: (process_placeholders_in_string t m).toList := by
  have hrender : renderSeg m (Seg.tok con nm) = con := by
    simp only [renderSeg, hunk]
  refine ⟨hrender, ?_⟩
  unfold process_placeholders_in_string
  have hmem : con ∈ (parseSegs t.toList).map (renderSeg m) := by
    rw [← hrender]
    exact List.mem_map_of_mem (renderSeg m) hseg
  exact mem_flatten_infix _ _ hmem

theorem c7_unknown_tokens_preserved_witness :
    (Seg.tok ['\x7b', '\x7b', 'q', '\x7d', '\x7d'] "q" ∈
        parseSegs ("x\x7b\x7bq\x7d\x7dy".toList) ∧
      dget [("a", some "1")] "q" = none) ∧
    (renderSeg [("a", some "1")] (Seg.tok ['\x7b', '\x7b', 'q', '\x7d', '\x7d'] "q") =
        ['\x7b', '\x7b', 'q', '\x7d', '\x7d'] ∧
      ['\x7b', '\x7b', 'q', '\x7d', '\x7d'] <:+:
        (process_placeholders_in_string "x\x7b\x7bq\x7d\x7dy" [("a", some "1")]).toList) :=
  ⟨⟨by decide, by decide⟩,
    c7_unknown_tokens_preserved "x\x7b\x7bq\x7d\x7dy" [("a", some "1")] _ _
      (by decide) (by decide)⟩

/-- Claim C6 (amended): single-pass substitution is idempotent whenever
the once-substituted text contains no token whose name is a key of the
map.  (The spec\x27s syntactic criterion on `T` and the values of `M`
is neither necessary nor sufficient for idempotence; see the
counterexample.) -/
theorem c6_idempotent_when_output_tokens_unknown (t : String)
    (m : List (String × Option String))
    (h : ∀ nm ∈ tokenNames (process_placeholders_in_string t m), dget m nm = none) :
    process_placeholders_in_string (process_placeholders_in_string t m) m =
      process_placeholders_in_string t m :=
  process_placeholders_fixed _ m h

theorem c6_idempotent_when_output_tokens_unknown_witness :
    (∀ nm ∈ tokenNames (process_placeholders_in_string "\x7b\x7ba\x7d\x7d \x7b\x7bb\x7d\x7d"
        [("a", some "A")]), dget [("a", some "A")] nm = none) ∧
    process_placeholders_in_string (process_placeholders_in_string
        "\x7b\x7ba\x7d\x7d \x7b\x7bb\x7d\x7d" [("a", some "A")]) [("a", some "A")] =
      process_placeholders_in_string "\x7b\x7ba\x7d\x7d \x7b\x7bb\x7d\x7d" [("a", some "A")] :=
  ⟨by decide,
    c6_idempotent_when_output_tokens_unknown "\x7b\x7ba\x7d\x7d \x7b\x7bb\x7d\x7d"
      [("a", some "A")] (by decide)⟩

/-- Claim C6, counterexample to the claimed equivalence.  The claim
says substitution is idempotent exactly when `T` has no token bound in
`M` to a value containing a token.  Both directions fail:
with `T = "\x7b\x7ba\x7d\x7d"` and `a` bound to its own token text the
condition is violated yet substitution is idempotent, and with
`T = "\x7b\x7ba\x7d\x7d\x7b\x7bb\x7d\x7dc\x7d\x7d"` where `a` and `b`
are bound to single open braces the condition holds yet the replaced
braces splice with the trailing `c\x7d\x7d` into a new token `c` that
the second pass rewrites. -/
theorem c6_idempotence_iff_fails :
    (process_placeholders_in_string (process_placeholders_in_string "\x7b\x7ba\x7d\x7d"
          [("a", some "\x7b\x7ba\x7d\x7d")]) [("a", some "\x7b\x7ba\x7d\x7d")] =
        process_placeholders_in_string "\x7b\x7ba\x7d\x7d" [("a", some "\x7b\x7ba\x7d\x7d")] ∧
      specIdemCond "\x7b\x7ba\x7d\x7d" [("a", some "\x7b\x7ba\x7d\x7d")] = false) ∧
    (specIdemCond "\x7b\x7ba\x7d\x7d\x7b\x7bb\x7d\x7dc\x7d\x7d"
          [("a", some "\x7b"), ("b", some "\x7b"), ("c", some "X")] = true ∧
      process_placeholders_in_string (process_placeholders_in_string
          "\x7b\x7ba\x7d\x7d\x7b\x7bb\x7d\x7dc\x7d\x7d"
          [("a", some "\x7b"), ("b", some "\x7b"), ("c", some "X")])
          [("a", some "\x7b"), ("b", some "\x7b"), ("c", some "X")] ≠
        process_placeholders_in_string "\x7b\x7ba\x7d\x7d\x7b\x7bb\x7d\x7dc\x7d\x7d"
          [("a", some "\x7b"), ("b", some "\x7b"), ("c", some "X")]) := by
  decide

/-! ## Result dataclasses and the repository snapshot

Source: the dataclasses of src/github_utils.py (lines 21-76). -/

structure Repository where
  name : String
  full_name : String
  html_url : String := ""
  updated_at : String := ""
  default_branch : String
  description : Option String := Option.none
  private_flag : Option Bool := Option.none
  fork : Option Bool := Option.none
  archived : Option Bool := Option.none
  created_at : Option String := Option.none
  pushed_at : Option String := Option.none
  owner_login : Option String := Option.none
  deriving Repr, DecidableEq

structure FileContentResult where
  content : Option String := Option.none
  sha : Option String := Option.none
  default_branch_name : Option String := Option.none
  error : Option String := Option.none
  deriving Repr, DecidableEq

structure BranchOperationResult where
  success : Bool
  message : Option String := Option.none
  deriving Repr, DecidableEq

structure PullRequestResult where
  html_url : Option String := Option.none
  message : Option String := Option.none
  deriving Repr, DecidableEq

structure FileOperationStatus where
  success : Bool
  message : Option String := Option.none
  deriving Repr, DecidableEq

structure FileUpdateResult where
  success : Bool
  message : Option String := Option.none
  new_sha : Option String := Option.none
  deriving Repr, DecidableEq

structure PlaceholderExtractionResult where
  value : Option String := Option.none
  error : Option String := Option.none
  deriving Repr, DecidableEq

/-- A located target file: the `.path`/`.sha` interface shared by
PyGithub `ContentFile` objects and the executors\x27 dummy content-file
shims. -/
structure TargetFile where
  path : String
  sha : Option String := Option.none
  deriving Repr, DecidableEq

structure TargetFilesResult where
  files : List TargetFile := []
  error : Option String := Option.none
  deriving Repr, DecidableEq

/-- A per-repository result dict appended to the batch list:
`\x7b"repo": ..., "success": ..., "message": ..., "pr_url": ...\x7d`.
`pr_url := none` covers both an absent key and an explicit `None`. -/
structure ActionResult where
  repo : String
  success : Bool
  message : String
  pr_url : Option String := Option.none
  deriving Repr, DecidableEq

/-- A `GithubException` (or its `UnknownObjectException` subclass when
`unknownObj` is set): HTTP status, `data["message"]`, and the messages
of `data["errors"]`. -/
structure GhExn where
  status : Int := 0
  message : String := ""
  errors : List String := []
  unknownObj : Bool := false
  deriving Repr, DecidableEq

/-- Outcome of `repo.get_contents(path, ref)`: a single file blob, a
directory listing (a Python list), a `ContentFile` whose `type` is
`"dir"`, a submodule-like entry without decodable content, or a raised
`GithubException`. -/
inductive GetContentsRes where
  | file (content : String) (sha : String)
  | dirListing
  | dirFile (sha : String)
  | submodule (sha : String)
  | exn (e : GhExn)
  deriving Repr

/-- One entry of a recursive git tree. -/
structure TreeElem where
  path : String
  type : String
  deriving Repr, DecidableEq

/-- A regex match object: `group(0)` and the capture groups
(`None` for a group that did not participate in the match). -/
structure MatchRes where
  group0 : String
  groups : List (Option String) := []
  deriving Repr

/-! ## JSON/YAML-like documents

`json.loads` and `yaml.safe_load` are external libraries; the parsers
are oracle fields of `Host` returning an already-parsed document.  The
repository code navigates the parsed tree itself
(`_get_value_from_path`), which is embedded below.  Mapping keys are
modelled as strings (the `isinstance(k, str)` guard in the
case-insensitive fallback is then always satisfied). -/

mutual
inductive PyVal where
  | none
  | str (s : String)
  | int (n : Int)
  | bool (b : Bool)
  | list (xs : PyListV)
  | dict (kvs : PyDictV)
inductive PyListV where
  | nil
  | cons (hd : PyVal) (tl : PyListV)
inductive PyDictV where
  | nil
  | cons (key : String) (val : PyVal) (tl : PyDictV)
end

/-- Build a document list spine from a Lean list. -/
def pyListOf : List PyVal → PyListV
  | [] => PyListV.nil
  | x :: xs => PyListV.cons x (pyListOf xs)

/-- Build a document mapping spine from a Lean association list
(insertion order preserved, as in a Python dict). -/
def pyDictOf : List (String × PyVal) → PyDictV
  | [] => PyDictV.nil
  | kv :: kvs => PyDictV.cons kv.1 kv.2 (pyDictOf kvs)

/-- Python `key in value` followed by `value[key]` on a mapping. -/
def PyDictV.findExact : PyDictV → String → Option PyVal
  | PyDictV.nil, _ => Option.none
  | PyDictV.cons k v tl, key => if k = key then some v else PyDictV.findExact tl key

/-- The case-insensitive fallback scan over the mapping keys in
insertion order (`isinstance(k, str)` always holds here since keys are
modelled as strings). -/
def PyDictV.findCI : PyDictV → String → Option PyVal
  | PyDictV.nil, _ => Option.none
  | PyDictV.cons k v tl, key =>
    if pyLower k = pyLower key then some v else PyDictV.findCI tl key

def PyListV.length : PyListV → Nat
  | PyListV.nil => 0
  | PyListV.cons _ tl => tl.length + 1

def PyListV.get? : PyListV → Nat → Option PyVal
  | PyListV.nil, _ => Option.none
  | PyListV.cons hd _, 0 => some hd
  | PyListV.cons _ tl, n + 1 => PyListV.get? tl n

def isContainer : PyVal → Bool
  | PyVal.dict _ => true
  | PyVal.list _ => true
  | _ => false

mutual
/-- Python `repr`, used when a container or nested value is
interpolated into a string (string-escaping subtleties inside `repr`
are not modelled). -/
def pyRepr : PyVal → String
  | PyVal.none => "None"
  | PyVal.str s => "\x27" ++ s ++ "\x27"
  | PyVal.int n => toString n
  | PyVal.bool true => "True"
  | PyVal.bool false => "False"
  | PyVal.list xs => "[" ++ String.intercalate ", " (pyReprItems xs) ++ "]"
  | PyVal.dict kvs => "\x7b" ++ String.intercalate ", " (pyReprPairs kvs) ++ "\x7d"
def pyReprItems : PyListV → List String
  | PyListV.nil => []
  | PyListV.cons x xs => pyRepr x :: pyReprItems xs
def pyReprPairs : PyDictV → List String
  | PyDictV.nil => []
  | PyDictV.cons k v kvs => ("\x27" ++ k ++ "\x27: " ++ pyRepr v) :: pyReprPairs kvs
end

/-- Python `str(x)` of an extracted value (`str(extracted_value)` in
`extract_placeholder_value`). -/
def pyStr (v : PyVal) : String :=
  match v with
  | PyVal.str s => s
  | PyVal.none => "None"
  | PyVal.int n => toString n
  | PyVal.bool true => "True"
  | PyVal.bool false => "False"
  | PyVal.list xs => pyRepr (PyVal.list xs)
  | PyVal.dict kvs => pyRepr (PyVal.dict kvs)

/-- Digit run to a number, `none` unless the run is non-empty and all
ASCII digits. -/
def digitsToNat (l : List Char) : Option Nat :=
  if l ≠ [] ∧ l.all (fun c => c.isDigit) then
    some (l.foldl (fun acc c => acc * 10 + (c.toNat - '0'.toNat)) 0)
  else Option.none

/-- Python `int(s)` on the strings reaching the list-index branch of
`_get_value_from_path` (surrounding whitespace and an optional sign;
digit-group underscores are not modelled). -/
def pyParseInt (s : String) : Option Int :=
  match (pyStrip s).toList with
  | '+' :: ds => (digitsToNat ds).map Int.ofNat
  | '-' :: ds => (digitsToNat ds).map (fun n => -(Int.ofNat n))
  | ds => (digitsToNat ds).map Int.ofNat

/-- One mapping step of `_get_value_from_path`: exact key membership
first, then the case-insensitive fallback scan; `Key ... not found`
otherwise. -/
def navDictLookup (path key : String) (kvs : PyDictV) : Except String PyVal :=
  match kvs.findExact key with
  | some w => Except.ok w
  | Option.none =>
    match kvs.findCI key with
    | some w => Except.ok w
    | Option.none => Except.error s!"Key \x27{key}\x27 not found in path \x27{path}\x27"

/-- One sequence step: parse the key as an integer index and check
`0 <= idx < len`. -/
def navListLookup (path key : String) (xs : PyListV) : Except String PyVal :=
  match pyParseInt key with
  | some (Int.ofNat n) =>
    (match xs.get? n with
      | some w => Except.ok w
      | Option.none =>
        let idx : Int := Int.ofNat n
        Except.error s!"Index {idx} out of bounds for key \x27{key}\x27 in path \x27{path}\x27")
  | some (Int.negSucc m) =>
    let idx : Int := Int.negSucc m
    Except.error s!"Index {idx} out of bounds for key \x27{key}\x27 in path \x27{path}\x27"
  | Option.none =>
    Except.error s!"Invalid index \x27{key}\x27 in path \x27{path}\x27. Expected an integer."

/-- Source: `_get_value_from_path` (src/github_utils.py, lines
882-919), the per-key navigation loop.  The error path returns Python
`None` for the value, modelled as `PyVal.none`. -/
def navigateKeys (path : String) : List String → PyVal → PyVal × Option String
  | [], v => (v, Option.none)
  | key :: rest, v =>
    match v with
    | PyVal.dict kvs =>
      (match navDictLookup path key kvs with
        | Except.ok w => navigateKeys path rest w
        | Except.error e => (PyVal.none, some e))
    | PyVal.list xs =>
      (match navListLookup path key xs with
        | Except.ok w => navigateKeys path rest w
        | Except.error e => (PyVal.none, some e))
    | _ =>
      (PyVal.none,
        some s!"Cannot navigate further at \x27{key}\x27 in path \x27{path}\x27. Value is not a dict or list.")

/-- Source: `_get_value_from_path`: split the dotted path and walk the
document. -/
def get_value_from_path (data : PyVal) (path : String) : PyVal × Option String :=
  navigateKeys path (pySplit path ".") data

theorem navigateKeys_error_value (path : String) :
    ∀ (keys : List String) (v : PyVal),
      ((navigateKeys path keys v).2).isSome → (navigateKeys path keys v).1 = PyVal.none := by
  intro keys
  induction keys with
  | nil => intro v h; simp [navigateKeys] at h
  | cons key rest ih =>
    intro v h
    cases v with
    | dict kvs =>
      simp only [navigateKeys] at h ⊢
      cases hf : navDictLookup path key kvs with
      | ok w => rw [hf] at h; exact ih w h
      | error e => rfl
    | list xs =>
      simp only [navigateKeys] at h ⊢
      cases hf : navListLookup path key xs with
      | ok w => rw [hf] at h; exact ih w h
      | error e => rfl
    | none => rfl
    | str s => rfl
    | int n => rfl
    | bool b => rfl

theorem get_value_from_path_error_value (data : PyVal) (path : String)
    (h : ((get_value_from_path data path).2).isSome) :
    (get_value_from_path data path).1 = PyVal.none :=
  navigateKeys_error_value path _ data h

/-! ## The YAML candidate-path loop

Source: `extract_placeholder_value`, method `"YAML Path"`
(src/github_utils.py, lines 1006-1059), together with the shared final
conversion (lines 1068-1078). -/

/-- The candidate list derived from the `yaml_path` configuration
entry: a single string becomes a one-element list of its stripped form
(when non-blank), a list keeps its non-blank string members verbatim,
anything else is empty. -/
inductive YamlPathCfg where
  | missing
  | single (s : String)
  | multiple (ps : List String)
  deriving Repr

def yamlPathList : YamlPathCfg → List String
  | YamlPathCfg.missing => []
  | YamlPathCfg.single s => if pyStrip s ≠ "" then [pyStrip s] else []
  | YamlPathCfg.multiple ps => ps.filter (fun p => pyStrip p ≠ "")

/-- The per-path error line accumulated by the candidate loop. -/
def yaml_path_error_line (p e : String) : String := s!"Path \x27{p}\x27: {e}"

/-- Candidate loop: accumulate an error line per failing path, break on
the first path whose value is non-null with no error.  Returns the
extracted value (`PyVal.none` when no path yielded one) and the
accumulated per-path errors. -/
def yaml_paths_loop (data : PyVal) (acc : List String) : List String → PyVal × List String
  | [] => (PyVal.none, acc)
  | p :: ps =>
    let r := get_value_from_path data p
    let acc2 := match r.2 with
      | some e => acc ++ [yaml_path_error_line p e]
      | Option.none => acc
    match r.1, r.2 with
    | PyVal.none, _ => yaml_paths_loop data acc2 ps
    | v, Option.none => (v, acc2)
    | _, some _ => yaml_paths_loop data acc2 ps

/-- The aggregated message produced when every candidate path failed
(line 1048). -/
def yaml_agg_error (errs : List String) : String :=
  let j := String.intercalate "; " errs
  s!"All YAML paths failed. Errors: [{j}]"

/-- The message produced when no candidate path yielded a non-null
value (line 1053). -/
def yaml_no_value_error (file_path : String) (paths : List String) : String :=
  let t := pyReprStrList paths
  s!"None of the provided YAML paths yielded a non-null value from \x27{file_path}\x27. Tried: {t}"

/-- The YAML extraction on an already-parsed document, combining the
root-type check, the candidate loop, the two post-loop error branches
and the shared final string conversion. -/
def yaml_extract_from_data (data : PyVal) (file_path : String) (paths : List String) :
    PlaceholderExtractionResult :=
  if isContainer data = false then
    { value := Option.none,
      error := some s!"YAML content in \x27{file_path}\x27 is not a valid mapping or sequence (e.g. JSON object or array)." }
  else
    match yaml_paths_loop data [] paths with
    | (PyVal.none, errs) =>
      if errs ≠ [] ∧ errs.length = paths.length then
        { value := Option.none, error := some (yaml_agg_error errs) }
      else
        { value := Option.none, error := some (yaml_no_value_error file_path paths) }
    | (v, _) => { value := some (pyStr v), error := Option.none }

/-! ## The host oracle

All PyGithub calls and external library calls are deterministic oracle
functions.  Exceptions are represented as `Except.error` with a `GhExn`
carrying the HTTP status, the message, the per-error messages and
whether the exception is an `UnknownObjectException`.  Calls raising
non-GitHub exceptions are outside the model. -/

structure Host where
  /-- `g.get_repo(full_name)`; the payload is `repo.default_branch`. -/
  getRepoRes : String → Except GhExn String
  /-- `repo.owner.login` (attribute access, assumed not to raise). -/
  ownerLogin : String → String
  /-- `repo.get_contents(path, ref)` for `(full_name, path, ref)`. -/
  getContents : String → String → String → GetContentsRes
  /-- `repo.get_git_ref(ref)` for `(full_name, ref)`. -/
  getGitRef : String → String → Except GhExn Unit
  /-- `repo.get_branch(name)`; the payload is `branch.commit.sha`. -/
  getBranch : String → String → Except GhExn String
  /-- `repo.create_git_ref(ref, sha)` for `(full_name, ref, sha)`. -/
  createGitRef : String → String → String → Except GhExn Unit
  /-- `repo.delete_file(path, message, sha, branch)` for
  `(full_name, path, message, branch, sha)`. -/
  deleteFileOp : String → String → Option String → String → String → Except GhExn Unit
  /-- `repo.update_file(path, message, content, sha, branch)` for
  `(full_name, path, message, content, sha, branch)`; the payload is
  the new blob sha. -/
  updateFileOp : String → String → Option String → String → String → String → Except GhExn String
  /-- `repo.create_file(path, message, content, branch)` for
  `(full_name, path, message, content, branch)`; the payload is the new
  blob sha. -/
  createFileOp : String → String → Option String → String → String → Except GhExn String
  /-- `repo.get_pulls(state="open", head, base)` for
  `(full_name, head_spec, base)`; the payload lists the open PR URLs. -/
  listPulls : String → String → String → Except GhExn (List String)
  /-- `repo.create_pull(title, body, head, base)`; the payload is the
  new PR URL. -/
  createPull : String → Option String → Option String → String → String → Except GhExn String
  /-- `g.search_code(query)`; the payload lists the matched paths. -/
  searchCode : String → Except GhExn (List String)
  /-- `repo.get_git_tree(sha, recursive=True)` for `(full_name, sha)`. -/
  getGitTree : String → String → Except GhExn (List TreeElem)
  /-- `fnmatch.fnmatch(name, pattern)`. -/
  fnmatchFn : String → String → Bool
  /-- `re.search(pattern, content)`. -/
  reSearch : String → String → Option MatchRes
  /-- `re.sub(pattern, repl, content, count)`; `Except.error` is an
  `re.error`. -/
  reSub : String → String → String → Nat → Except String String
  /-- `json.loads(content)`; `Except.error` is a `JSONDecodeError`. -/
  jsonParse : String → Except String PyVal
  /-- `yaml.safe_load(content)`; `Except.error` is a `YAMLError`. -/
  yamlParse : String → Except String PyVal

/-! ## get_file_content

Source: `get_file_content` (src/github_utils.py, lines 170-227).
UTF-8 decoding of the blob is assumed to succeed (the oracle already
provides decoded text). -/

def get_file_content (h : Host) (repo_full_name file_path : String)
    (branch : Option String) : FileContentResult :=
  match h.getRepoRes repo_full_name with
  | Except.error e =>
    if e.unknownObj then
      { error := some s!"Repository \x27{repo_full_name}\x27 not found." }
    else
      { error := some s!"GitHub API error getting repo \x27{repo_full_name}\x27: {e.message}" }
  | Except.ok default_branch_name =>
    let actual_branch := branch.getD default_branch_name
    match h.getContents repo_full_name file_path actual_branch with
    | GetContentsRes.dirListing =>
      { default_branch_name := some default_branch_name,
        error := some s!"Path \x27{file_path}\x27 is a directory, not a file. Please provide a path to a specific file." }
    | GetContentsRes.dirFile _ =>
      { default_branch_name := some default_branch_name,
        error := some s!"Path \x27{file_path}\x27 is a directory, not a file." }
    | GetContentsRes.submodule _ =>
      { default_branch_name := some default_branch_name,
        error := some s!"The item at \x27{file_path}\x27 does not have decodable content (it might be a submodule or an unexpected type)." }
    | GetContentsRes.file content sha =>
      { content := some content, sha := some sha,
        default_branch_name := some default_branch_name }
    | GetContentsRes.exn e =>
      if e.unknownObj then
        { default_branch_name := some default_branch_name,
          error := some s!"File \x27{file_path}\x27 not found in branch \x27{actual_branch}\x27 of {repo_full_name}." }
      else
        { default_branch_name := some default_branch_name,
          error := some s!"GitHub API error getting file \x27{file_path}\x27 from \x27{actual_branch}\x27: {e.message}" }

/-! ## extract_placeholder_value

Source: `extract_placeholder_value` (src/github_utils.py, lines
921-1078).  The catch-all `except Exception` around the dispatch is
unreachable in the model (no modelled operation raises a non-GitHub
exception there). -/

/-- The method-specific extraction configuration dict. -/
structure ExtractionConfig where
  pattern : Option String := Option.none
  group_index : Option Int := Option.none
  jsonpath_expression : Option String := Option.none
  yaml_path : YamlPathCfg := YamlPathCfg.missing

/-- `match.group(group_index)` as a document value: group 0 is the
whole match, a capture group that did not participate is `None`.
Callers check `0 <= i <= len(match.groups())` first. -/
def pyGroupVal (m : MatchRes) (i : Int) : PyVal :=
  if i = 0 then PyVal.str m.group0
  else
    match m.groups.get? (i.toNat - 1) with
    | some (some s) => PyVal.str s
    | some Option.none => PyVal.none
    | Option.none => PyVal.none

/-- The shared final conversion (lines 1068-1078): a pending error
wins, a `None` extraction is the valid no-value result, anything else
is stringified. -/
def finalize_extraction (v : PyVal) : PlaceholderExtractionResult :=
  match v with
  | PyVal.none => { value := Option.none, error := Option.none }
  | w => { value := some (pyStr w), error := Option.none }

def extract_placeholder_value (h : Host) (repo_full_name branch file_path : String)
    (extraction_method : String) (extraction_config : ExtractionConfig) :
    PlaceholderExtractionResult :=
  let file_content_result := get_file_content h repo_full_name file_path (some branch)
  if optStrTruthy file_content_result.error then
    let e := pyShowOpt file_content_result.error
    { error := some s!"Failed to get file \x27{file_path}\x27: {e}" }
  else
    match file_content_result.content with
    | Option.none =>
      { error := some s!"File \x27{file_path}\x27 content is None (or could not be decoded)." }
    | some file_content_str =>
      if extraction_method = "Regex" then
        if optStrTruthy extraction_config.pattern = false then
          { error := some "Regex pattern not provided in config." }
        else
          let pattern := extraction_config.pattern.getD ""
          match h.reSearch pattern file_content_str with
          | Option.none =>
            { error := some s!"Regex pattern \x27{pattern}\x27 did not match in file \x27{file_path}\x27." }
          | some m =>
            let group_index := extraction_config.group_index.getD 0
            if group_index < 0 ∨ group_index > (m.groups.length : Int) then
              { error := some s!"Regex group_index {group_index} is out of bounds." }
            else
              finalize_extraction (pyGroupVal m group_index)
      else if extraction_method = "JSON Path" then
        if optStrTruthy extraction_config.jsonpath_expression = false then
          { error := some "JSONPath expression not provided in config." }
        else
          let expr := extraction_config.jsonpath_expression.getD ""
          match h.jsonParse file_content_str with
          | Except.error e =>
            { error := some s!"Failed to parse JSON from \x27{file_path}\x27: {e}" }
          | Except.ok data =>
            let r := get_value_from_path data expr
            match r.2 with
            | some err => { error := some err }
            | Option.none => finalize_extraction r.1
      else if extraction_method = "YAML Path" then
        let paths := yamlPathList extraction_config.yaml_path
        if paths = [] then
          { error := some "YAML Path list not provided or is empty in config." }
        else
          match h.yamlParse file_content_str with
          | Except.error e =>
            { error := some s!"Failed to parse YAML from \x27{file_path}\x27: {e}" }
          | Except.ok data => yaml_extract_from_data data file_path paths
      else
        { error := some s!"Unsupported extraction method: \x27{extraction_method}\x27." }

/-! ## Behaviour of the YAML candidate loop -/

theorem yaml_loop_step_err (data : PyVal) (p : String) (ps : List String)
    (acc : List String) (e : String)
    (he : (get_value_from_path data p).2 = some e) :
    yaml_paths_loop data acc (p :: ps) =
      yaml_paths_loop data (acc ++ [yaml_path_error_line p e]) ps := by
  have hv : (get_value_from_path data p).1 = PyVal.none :=
    get_value_from_path_error_value data p (by rw [he]; rfl)
  simp only [yaml_paths_loop, he, hv]

theorem yaml_loop_step_null (data : PyVal) (p : String) (ps : List String)
    (acc : List String)
    (hv : (get_value_from_path data p).1 = PyVal.none)
    (he : (get_value_from_path data p).2 = Option.none) :
    yaml_paths_loop data acc (p :: ps) = yaml_paths_loop data acc ps := by
  simp only [yaml_paths_loop, he, hv]

theorem yaml_loop_step_break (data : PyVal) (p : String) (ps : List String)
    (acc : List String)
    (hne : (get_value_from_path data p).1 ≠ PyVal.none) :
    yaml_paths_loop data acc (p :: ps) = ((get_value_from_path data p).1, acc) := by
  have he : (get_value_from_path data p).2 = Option.none := by
    cases hs : (get_value_from_path data p).2 with
    | none => rfl
    | some e =>
      exact absurd (get_value_from_path_error_value data p (by rw [hs]; rfl)) hne
  cases hv : (get_value_from_path data p).1 with
  | none => exact absurd hv hne
  | str s => simp only [yaml_paths_loop, hv, he]
  | int n => simp only [yaml_paths_loop, hv, he]
  | bool b => simp only [yaml_paths_loop, hv, he]
  | list xs => simp only [yaml_paths_loop, hv, he]
  | dict kvs => simp only [yaml_paths_loop, hv, he]

theorem yaml_loop_all_err (data : PyVal) :
    ∀ (paths : List String) (acc : List String),
      (∀ p ∈ paths, ((get_value_from_path data p).2).isSome = true) →
      (yaml_paths_loop data acc paths).1 = PyVal.none ∧
        (yaml_paths_loop data acc paths).2.length = acc.length + paths.length := by
  intro paths
  induction paths with
  | nil => intro acc _; exact ⟨rfl, by simp [yaml_paths_loop]⟩
  | cons p ps ih =>
    intro acc h
    obtain ⟨e, he⟩ := Option.isSome_iff_exists.mp (h p (List.mem_cons_self p ps))
    rw [yaml_loop_step_err data p ps acc e he]
    obtain ⟨ih1, ih2⟩ := ih (acc ++ [yaml_path_error_line p e])
      (fun q hq => h q (List.mem_cons_of_mem p hq))
    refine ⟨ih1, ?_⟩
    rw [ih2, List.length_append, List.length_cons]
    simp only [List.length_cons, List.length_nil]
    omega

theorem yaml_loop_all_null (data : PyVal) :
    ∀ (paths : List String) (acc : List String),
      (∀ p ∈ paths, (get_value_from_path data p).1 = PyVal.none) →
      (yaml_paths_loop data acc paths).1 = PyVal.none ∧
        (yaml_paths_loop data acc paths).2.length =
          acc.length + paths.countP (fun p => ((get_value_from_path data p).2).isSome) := by
  intro paths
  induction paths with
  | nil => intro acc _; exact ⟨rfl, by simp [yaml_paths_loop]⟩
  | cons p ps ih =>
    intro acc h
    have hp := h p (List.mem_cons_self p ps)
    have htl := fun q hq => h q (List.mem_cons_of_mem p hq)
    cases hs : (get_value_from_path data p).2 with
    | some e =>
      rw [yaml_loop_step_err data p ps acc e hs]
      obtain ⟨ih1, ih2⟩ := ih (acc ++ [yaml_path_error_line p e]) htl
      refine ⟨ih1, ?_⟩
      rw [ih2, List.length_append, List.countP_cons]
      simp only [hs, Option.isSome_some, if_pos, List.length_cons, List.length_nil]
      omega
    | none =>
      rw [yaml_loop_step_null data p ps acc hp hs]
      obtain ⟨ih1, ih2⟩ := ih acc htl
      refine ⟨ih1, ?_⟩
      rw [ih2, List.countP_cons]
      simp only [hs, Option.isSome_none, Bool.false_eq_true, if_false]
      omega

theorem yaml_loop_first_nonnull (data : PyVal) :
    ∀ (paths : List String) (acc : List String) (v : PyVal),
      paths.findSome? (fun p =>
        match (get_value_from_path data p).1 with
        | PyVal.none => Option.none
        | w => some w) = some v →
      (yaml_paths_loop data acc paths).1 = v ∧ v ≠ PyVal.none := by
  intro paths
  induction paths with
  | nil => intro acc v h; simp [List.findSome?] at h
  | cons p ps ih =>
    intro acc v h
    rw [List.findSome?_cons] at h
    cases hv : (get_value_from_path data p).1 with
    | none =>
      rw [hv] at h
      simp only at h
      cases hs : (get_value_from_path data p).2 with
      | some e => rw [yaml_loop_step_err data p ps acc e hs]; exact ih _ v h
      | none => rw [yaml_loop_step_null data p ps acc hv hs]; exact ih _ v h
    | str s =>
      rw [hv] at h
      simp only [Option.some.injEq] at h
      subst h
      rw [yaml_loop_step_break data p ps acc (by rw [hv]; intro hc; cases hc), hv]
      exact ⟨rfl, by intro hc; cases hc⟩
    | int n =>
      rw [hv] at h
      simp only [Option.some.injEq] at h
      subst h
      rw [yaml_loop_step_break data p ps acc (by rw [hv]; intro hc; cases hc), hv]
      exact ⟨rfl, by intro hc; cases hc⟩
    | bool b =>
      rw [hv] at h
      simp only [Option.some.injEq] at h
      subst h
      rw [yaml_loop_step_break data p ps acc (by rw [hv]; intro hc; cases hc), hv]
      exact ⟨rfl, by intro hc; cases hc⟩
    | list xs =>
      rw [hv] at h
      simp only [Option.some.injEq] at h
      subst h
      rw [yaml_loop_step_break data p ps acc (by rw [hv]; intro hc; cases hc), hv]
      exact ⟨rfl, by intro hc; cases hc⟩
    | dict kvs =>
      rw [hv] at h
      simp only [Option.some.injEq] at h
      subst h
      rw [yaml_loop_step_break data p ps acc (by rw [hv]; intro hc; cases hc), hv]
      exact ⟨rfl, by intro hc; cases hc⟩

/-- A base host whose fields are stubs; concrete scenarios override the
fields they exercise. -/
def stubHost : Host :=
  { getRepoRes := fun _ => Except.ok "main"
    ownerLogin := fun _ => "owner"
    getContents := fun _ _ _ =>
      GetContentsRes.exn { status := 404, message := "Not Found", unknownObj := true }
    getGitRef := fun _ _ => Except.ok ()
    getBranch := fun _ _ => Except.ok "srcsha"
    createGitRef := fun _ _ _ => Except.ok ()
    deleteFileOp := fun _ _ _ _ _ => Except.ok ()
    updateFileOp := fun _ _ _ _ _ _ => Except.ok "newsha"
    createFileOp := fun _ _ _ _ _ => Except.ok "newsha"
    listPulls := fun _ _ _ => Except.ok []
    createPull := fun _ _ _ _ _ => Except.ok "https://example.test/pr/1"
    searchCode := fun _ => Except.ok []
    getGitTree := fun _ _ => Except.ok []
    fnmatchFn := fun _ _ => true
    reSearch := fun _ _ => Option.none
    reSub := fun _ _ c _ => Except.ok c
    jsonParse := fun _ => Except.error "not json"
    yamlParse := fun _ => Except.error "not yaml" }

/-- Host for the YAML scenarios: the placeholder source file parses to
the mapping `\x7ba: null\x7d`. -/
def hostYamlAllNull : Host :=
  { stubHost with
    getContents := fun _ _ _ => GetContentsRes.file "a:\n" "sha-a"
    yamlParse := fun _ => Except.ok (PyVal.dict (pyDictOf [("a", PyVal.none)])) }

/-- YAML-path configuration with the single candidate list `["a"]`. -/
def cfgYamlA : ExtractionConfig := { yaml_path := YamlPathCfg.multiple ["a"] }

/-- Claim C4, counterexample.  The claim says that when every
candidate path resolves but all values are null the result is the
non-fatal no-value result `value=None, error=None`.  On the document
`\x7ba: null\x7d` with candidate list `["a"]` the code instead returns
the `None of the provided YAML paths...` error message. -/
theorem c4_all_null_yields_error :
    extract_placeholder_value hostYamlAllNull "acme/widget" "main" "cfg.yaml"
        "YAML Path" cfgYamlA =
      { value := Option.none, error := some (yaml_no_value_error "cfg.yaml" ["a"]) } ∧
    some (yaml_no_value_error "cfg.yaml" ["a"]) ≠ (Option.none : Option String) := by
  constructor
  · rfl
  · intro hc; cases hc

/-- Claim C4 (amended): for a parsed mapping/sequence root and a
non-empty candidate list, the aggregated joined error is produced
exactly when every candidate failed with a structural error; when every
candidate resolves but all values are null the extraction is NOT the
non-fatal no-value result — it is the error stating that no path
yielded a non-null value (which the resolver then treats as fatal). -/
theorem c4_yaml_error_classification (data : PyVal) (fp : String) (paths : List String)
    (hcont : isContainer data = true) (hne : paths ≠ []) :
    ((∀ p ∈ paths, ((get_value_from_path data p).2).isSome = true) →
      yaml_extract_from_data data fp paths =
        { value := Option.none,
          error := some (yaml_agg_error (yaml_paths_loop data [] paths).2) }) ∧
    ((∀ p ∈ paths, (get_value_from_path data p).1 = PyVal.none) →
      (∃ p ∈ paths, (get_value_from_path data p).2 = Option.none) →
      yaml_extract_from_data data fp paths =
        { value := Option.none, error := some (yaml_no_value_error fp paths) }) := by
  constructor
  · intro hall
    obtain ⟨h1, h2⟩ := yaml_loop_all_err data paths [] hall
    unfold yaml_extract_from_data
    rw [hcont]
    simp only [Bool.true_eq_false, if_false]
    rcases hlp : yaml_paths_loop data [] paths with ⟨w, errs⟩
    rw [hlp] at h1 h2
    simp only at h1 h2
    subst h1
    have hlen : errs.length = paths.length := by
      simpa using h2
    have hnil : errs ≠ [] := by
      intro hc
      subst hc
      simp only [List.length_nil] at hlen
      exact hne (List.eq_nil_of_length_eq_zero hlen.symm)
    show (if errs ≠ [] ∧ errs.length = paths.length then
        ({ value := Option.none, error := some (yaml_agg_error errs) } :
          PlaceholderExtractionResult)
      else { value := Option.none, error := some (yaml_no_value_error fp paths) }) =
      { value := Option.none, error := some (yaml_agg_error errs) }
    rw [if_pos (And.intro hnil hlen)]
  · intro hall hex
    obtain ⟨h1, h2⟩ := yaml_loop_all_null data paths [] hall
    unfold yaml_extract_from_data
    rw [hcont]
    simp only [Bool.true_eq_false, if_false]
    rcases hlp : yaml_paths_loop data [] paths with ⟨w, errs⟩
    rw [hlp] at h1 h2
    simp only at h1 h2
    subst h1
    have hlt : errs.length ≠ paths.length := by
      simp only [List.length_nil, Nat.zero_add] at h2
      rw [h2]
      intro hc
      obtain ⟨p, hp, hpe⟩ := hex
      have hcp := List.countP_eq_length.mp hc p hp
      rw [hpe] at hcp
      cases hcp
    show (if errs ≠ [] ∧ errs.length = paths.length then
        ({ value := Option.none, error := some (yaml_agg_error errs) } :
          PlaceholderExtractionResult)
      else { value := Option.none, error := some (yaml_no_value_error fp paths) }) =
      { value := Option.none, error := some (yaml_no_value_error fp paths) }
    rw [if_neg (fun hc => hlt hc.2)]

theorem c4_yaml_error_classification_witness :
    (isContainer (PyVal.dict (pyDictOf [("a", PyVal.none)])) = true ∧
      (["a"] : List String) ≠ []) ∧
    yaml_extract_from_data (PyVal.dict (pyDictOf [("a", PyVal.none)])) "cfg.yaml" ["a"] =
      { value := Option.none, error := some (yaml_no_value_error "cfg.yaml" ["a"]) } :=
  ⟨⟨rfl, by intro hc; cases hc⟩,
    (c4_yaml_error_classification (PyVal.dict (pyDictOf [("a", PyVal.none)])) "cfg.yaml"
        ["a"] rfl (by intro hc; cases hc)).2
      (by
        intro p hp
        rw [List.mem_singleton] at hp
        subst hp
        rfl)
      ⟨"a", List.mem_singleton.mpr rfl, rfl⟩⟩

/-- Claim C5: YAML candidates are evaluated in list order and the
first path resolving to a non-null value determines the result;
no later candidate can affect it. -/
theorem c5_first_non_null_wins (data : PyVal) (fp : String) (paths : List String) (v : PyVal)
    (hcont : isContainer data = true)
    (hfind : paths.findSome? (fun p =>
        match (get_value_from_path data p).1 with
        | PyVal.none => Option.none
        | w => some w) = some v) :
    yaml_extract_from_data data fp paths = { value := some (pyStr v), error := Option.none } := by
  obtain ⟨h1, hvne⟩ := yaml_loop_first_nonnull data paths [] v hfind
  unfold yaml_extract_from_data
  rw [hcont]
  simp only [Bool.true_eq_false, if_false]
  rcases hlp : yaml_paths_loop data [] paths with ⟨w, errs⟩
  rw [hlp] at h1
  simp only at h1
  subst h1
  cases w with
  | none => exact absurd rfl hvne
  | str s => rfl
  | int n => rfl
  | bool b => rfl
  | list xs => rfl
  | dict kvs => rfl

/-- The document `\x7ba: \x7bb: 5\x7d\x7d` of the claim\x27s example. -/
def yamlDocAB5 : PyVal :=
  PyVal.dict (pyDictOf [("a", PyVal.dict (pyDictOf [("b", PyVal.int 5)]))])

/-! ## The repo placeholder resolver

Source: `_resolve_all_placeholders_for_repo`
(src/action_processing.py, lines 30-82).  The `except Exception` around
the extractor call is unreachable in the model (the embedded extractor
is total); its abort behaviour coincides with the extractor-error
branch. -/

structure PhDef where
  name : String := ""
  file_path : String := ""
  method : String := ""
  config : ExtractionConfig := {}

/-- `if not ph_name or not ph_file_path or not ph_method` (a missing
dict key is Python `None`, modelled like the empty string: both are
falsy). -/
def phDefInvalid (d : PhDef) : Bool :=
  d.name = "" || d.file_path = "" || d.method = ""

def ph_skip_msg (d : PhDef) : String :=
  let n := d.name
  let p := d.file_path
  let m := d.method
  s!"- WARNING: Invalid placeholder definition skipped: Name=\x27{n}\x27, Path=\x27{p}\x27, Method=\x27{m}\x27"

def ph_err_msg (d : PhDef) (e : String) : String :=
  let n := d.name
  let p := d.file_path
  s!"- ERROR: Could not resolve placeholder \x27\x7b\x7b{n}\x7d\x7d\x27 from \x27{p}\x27: {e}. This repository will be skipped."

def ph_ok_msg (d : PhDef) (v : String) : String :=
  let n := d.name
  let p := d.file_path
  s!"- INFO: Placeholder \x27\x7b\x7b{n}\x7d\x7d\x27 (from \x27{p}\x27) resolved to: \x27{v}\x27"

/-- The four reserved built-in placeholders seeded into every map. -/
def resolveSeed (repo : Repository) (timestamp_str : String) :
    List (String × Option String) :=
  [("repo_name", some repo.name), ("repo_full_name", some repo.full_name),
    ("repo_default_branch", some repo.default_branch), ("timestamp", some timestamp_str)]

def resolveGo (h : Host) (repo : Repository) (m : List (String × Option String))
    (log : List String) : List PhDef → List (String × Option String) × List String × Bool
  | [] => (m, log, true)
  | d :: rest =>
    if phDefInvalid d then
      resolveGo h repo m (log ++ [ph_skip_msg d]) rest
    else
      let r := extract_placeholder_value h repo.full_name repo.default_branch
        d.file_path d.method d.config
      if optStrTruthy r.error then
        (m, log ++ [ph_err_msg d (r.error.getD "")], false)
      else
        let v := match r.value with
          | some s => s
          | Option.none => ""
        resolveGo h repo (dset m d.name (some v)) (log ++ [ph_ok_msg d v]) rest

def resolve_all_placeholders_for_repo (h : Host) (repo_info : Repository)
    (defined_placeholders : List PhDef) (timestamp_str : String) :
    List (String × Option String) × List String × Bool :=
  resolveGo h repo_info (resolveSeed repo_info timestamp_str) [] defined_placeholders

theorem dget_dset_ne (m : List (String × Option String)) (k n : String) (v : Option String)
    (hne : n ≠ k) : dget (dset m n v) k = dget m k := by
  simp only [dget, dset, List.find?, decide_eq_false hne]

theorem dget_dset_self (m : List (String × Option String)) (n : String) (v : Option String) :
    dget (dset m n v) n = some v := by
  simp [dget, dset, List.find?]

theorem resolveGo_preserves (h : Host) (repo : Repository) (k : String) :
    ∀ (defs : List PhDef) (m : List (String × Option String)) (log : List String),
      (∀ d ∈ defs, d.name ≠ k) →
      dget (resolveGo h repo m log defs).1 k = dget m k := by
  intro defs
  induction defs with
  | nil => intro m log _; rfl
  | cons d rest ih =>
    intro m log hk
    simp only [resolveGo]
    by_cases hinv : phDefInvalid d = true
    · rw [if_pos hinv]
      exact ih m _ (fun q hq => hk q (List.mem_cons_of_mem d hq))
    · rw [if_neg hinv]
      by_cases herr : optStrTruthy (extract_placeholder_value h repo.full_name
          repo.default_branch d.file_path d.method d.config).error = true
      · rw [if_pos herr]
      · rw [if_neg herr]
        rw [ih _ _ (fun q hq => hk q (List.mem_cons_of_mem d hq))]
        exact dget_dset_ne m k d.name _ (hk d (List.mem_cons_self d rest))

def reservedKeys : List String := ["repo_name", "repo_full_name", "repo_default_branch", "timestamp"]

/-- Claim C1 (amended): the reserved seeds survive resolution only in
the absence of a name collision — when no definition is named after a
reserved key, the resolved map still answers the seeded values for all
four reserved keys. -/
theorem c1_reserved_keys_stable_without_collision (h : Host) (repo : Repository)
    (defs : List PhDef) (ts : String)
    (hres : ∀ d ∈ defs, d.name ∉ reservedKeys) :
    dget (resolve_all_placeholders_for_repo h repo defs ts).1 "repo_name" =
        some (some repo.name) ∧
      dget (resolve_all_placeholders_for_repo h repo defs ts).1 "repo_full_name" =
        some (some repo.full_name) ∧
      dget (resolve_all_placeholders_for_repo h repo defs ts).1 "repo_default_branch" =
        some (some repo.default_branch) ∧
      dget (resolve_all_placeholders_for_repo h repo defs ts).1 "timestamp" =
        some (some ts) := by
  have hk : ∀ k ∈ reservedKeys, ∀ d ∈ defs, d.name ≠ k := by
    intro k hkmem d hd he
    exact hres d hd (he ▸ hkmem)
  unfold resolve_all_placeholders_for_repo
  refine ⟨?_, ?_, ?_, ?_⟩ <;>
    rw [resolveGo_preserves h repo _ defs _ [] (hk _ (by decide))] <;> rfl

/-- A host whose file content lets a Regex placeholder resolve to the
string `HACK`. -/
def hostRegexHack : Host :=
  { stubHost with
    getContents := fun _ _ _ => GetContentsRes.file "ver" "sha-v"
    reSearch := fun _ _ => some { group0 := "HACK", groups := [] } }

/-- A user-authored definition that reuses the reserved name
`repo_name`. -/
def defNamedRepoName : PhDef :=
  { name := "repo_name", file_path := "x.txt", method := "Regex",
    config := { pattern := some "v.*" } }

def repoLegit : Repository :=
  { name := "legit", full_name := "acme/legit", html_url := "https://example.test/acme/legit",
    updated_at := "2024-01-01 00:00:00", default_branch := "main" }

/-- Claim C1, counterexample.  A successfully resolved user-defined
placeholder named `repo_name` overwrites the reserved seed: the
resolved map answers `HACK` for `repo_name` instead of the
repository\x27s name, and resolution reports success. -/
theorem c1_reserved_key_overridden :
    dget (resolve_all_placeholders_for_repo hostRegexHack repoLegit [defNamedRepoName]
        "20240101-000000").1 "repo_name" = some (some "HACK") ∧
      (resolve_all_placeholders_for_repo hostRegexHack repoLegit [defNamedRepoName]
        "20240101-000000").2.2 = true ∧
      repoLegit.name ≠ "HACK" := by
  refine ⟨rfl, rfl, by decide⟩

/-- A user-authored definition with a non-reserved name. -/
def defNamedVersion : PhDef :=
  { name := "version", file_path := "x.txt", method := "Regex",
    config := { pattern := some "v.*" } }

theorem c1_reserved_keys_stable_without_collision_witness :
    (∀ d ∈ [defNamedVersion], d.name ∉ reservedKeys) ∧
    dget (resolve_all_placeholders_for_repo hostRegexHack repoLegit
        [defNamedVersion] "20240101-000000").1 "repo_name" = some (some repoLegit.name) :=
  ⟨by decide,
    (c1_reserved_keys_stable_without_collision hostRegexHack repoLegit
      [defNamedVersion] "20240101-000000" (by decide)).1⟩

/-- Claim C8: an invalid definition (empty name, path or method) is
skipped with a warning and resolution continues, whereas the first
extractor error stops the loop: the outcome over `pre ++ bad :: post`
equals the outcome over `pre ++ [bad]` for every `post`, with the
success flag false. -/
theorem c8_extractor_error_aborts :
    (∀ (h : Host) (repo : Repository) (m : List (String × Option String))
        (log : List String) (d : PhDef) (rest : List PhDef),
      phDefInvalid d = true →
      resolveGo h repo m log (d :: rest) = resolveGo h repo m (log ++ [ph_skip_msg d]) rest) ∧
    (∀ (h : Host) (repo : Repository) (pre : List PhDef) (bad : PhDef) (post : List PhDef)
        (m : List (String × Option String)) (log : List String),
      (resolveGo h repo m log pre).2.2 = true →
      phDefInvalid bad = false →
      optStrTruthy (extract_placeholder_value h repo.full_name repo.default_branch
        bad.file_path bad.method bad.config).error = true →
      resolveGo h repo m log (pre ++ bad :: post) = resolveGo h repo m log (pre ++ [bad]) ∧
        (resolveGo h repo m log (pre ++ [bad])).2.2 = false) := by
  constructor
  · intro h repo m log d rest hinv
    simp only [resolveGo, hinv, if_true]
  · intro h repo pre
    induction pre with
    | nil =>
      intro bad post m log _ hval herr
      constructor
      · simp only [List.nil_append, resolveGo, hval, Bool.false_eq_true, if_false, herr,
          if_true]
      · simp only [List.nil_append, resolveGo, hval, Bool.false_eq_true, if_false, herr,
          if_true]
    | cons d pre ih =>
      intro bad post m log hok hval herr
      simp only [List.cons_append, resolveGo]
      by_cases hinv : phDefInvalid d = true
      · simp only [hinv, if_true]
        have hok2 : (resolveGo h repo m (log ++ [ph_skip_msg d]) pre).2.2 = true := by
          simpa [resolveGo, hinv] using hok
        exact ih bad post m (log ++ [ph_skip_msg d]) hok2 hval herr
      · simp only [hinv, Bool.false_eq_true, if_false]
        by_cases herr2 : optStrTruthy (extract_placeholder_value h repo.full_name
            repo.default_branch d.file_path d.method d.config).error = true
        · exfalso
          have : (resolveGo h repo m log (d :: pre)).2.2 = false := by
            simp [resolveGo, hinv, herr2]
          rw [hok] at this
          cases this
        · simp only [herr2, Bool.false_eq_true, if_false]
          have hok2 : (resolveGo h repo
              (dset m d.name (some (match (extract_placeholder_value h repo.full_name
                repo.default_branch d.file_path d.method d.config).value with
                | some s => s
                | Option.none => "")))
              (log ++ [ph_ok_msg d (match (extract_placeholder_value h repo.full_name
                repo.default_branch d.file_path d.method d.config).value with
                | some s => s
                | Option.none => "")]) pre).2.2 = true := by
            simpa [resolveGo, hinv, herr2] using hok
          exact ih bad post _ _ hok2 hval herr

/-- Host for the abort scenario: the file `good.txt` exists, any other
placeholder source file is missing. -/
def hostGoodBad : Host :=
  { stubHost with
    getContents := fun _ p _ =>
      if p = "good.txt" then GetContentsRes.file "v1" "s1"
      else GetContentsRes.exn { status := 404, message := "Not Found", unknownObj := true }
    reSearch := fun _ _ => some { group0 := "1", groups := [] } }

def defGood : PhDef :=
  { name := "a", file_path := "good.txt", method := "Regex",
    config := { pattern := some "p" } }

def defBad : PhDef :=
  { name := "b", file_path := "missing.txt", method := "Regex",
    config := { pattern := some "p" } }

def defPost : PhDef :=
  { name := "c", file_path := "good.txt", method := "Regex",
    config := { pattern := some "p" } }

theorem c8_extractor_error_aborts_witness :
    ((resolveGo hostGoodBad repoLegit (resolveSeed repoLegit "ts") [] [defGood]).2.2 = true ∧
      phDefInvalid defBad = false ∧
      optStrTruthy (extract_placeholder_value hostGoodBad repoLegit.full_name
        repoLegit.default_branch defBad.file_path defBad.method defBad.config).error = true) ∧
    (resolveGo hostGoodBad repoLegit (resolveSeed repoLegit "ts") []
        ([defGood] ++ defBad :: [defPost]) =
      resolveGo hostGoodBad repoLegit (resolveSeed repoLegit "ts") [] ([defGood] ++ [defBad]) ∧
      (resolveGo hostGoodBad repoLegit (resolveSeed repoLegit "ts") []
        ([defGood] ++ [defBad])).2.2 = false) :=
  ⟨⟨rfl, rfl, rfl⟩,
    c8_extractor_error_aborts.2 hostGoodBad repoLegit [defGood] defBad [defPost]
      (resolveSeed repoLegit "ts") [] rfl rfl rfl⟩

/-- Claim C10: a regex match whose selected in-bounds capture group did
not participate yields the non-error no-value extraction
(`value=None, error=None`), and the resolver then stores the empty
string under the placeholder name. -/
theorem c10_nonparticipating_group_empty (h : Host) (repo : Repository) (d : PhDef)
    (content sha pat : String) (m : MatchRes) (gi : Int) (ts : String)
    (hrepo : h.getRepoRes repo.full_name = Except.ok repo.default_branch)
    (hfile : h.getContents repo.full_name d.file_path repo.default_branch =
      GetContentsRes.file content sha)
    (hmethod : d.method = "Regex")
    (hpat : d.config.pattern = some pat) (hpat_ne : pat ≠ "")
    (hsearch : h.reSearch pat content = some m)
    (hgi : d.config.group_index = some gi)
    (hgi_pos : 0 < gi) (hgi_bound : gi ≤ (m.groups.length : Int))
    (hgroup : m.groups.get? (gi.toNat - 1) = some Option.none)
    (hvalid : phDefInvalid d = false) :
    extract_placeholder_value h repo.full_name repo.default_branch d.file_path d.method
        d.config = { value := Option.none, error := Option.none } ∧
      dget (resolve_all_placeholders_for_repo h repo [d] ts).1 d.name = some (some "") := by
  have hfc : get_file_content h repo.full_name d.file_path (some repo.default_branch) =
      { content := some content, sha := some sha,
        default_branch_name := some repo.default_branch } := by
    simp only [get_file_content, hrepo, Option.getD_some, hfile]
  have h1 : optStrTruthy (get_file_content h repo.full_name d.file_path
      (some repo.default_branch)).error = false := by
    rw [hfc]
    rfl
  have h2 : (get_file_content h repo.full_name d.file_path
      (some repo.default_branch)).content = some content := by
    rw [hfc]
  have h3 : optStrTruthy d.config.pattern = true := by
    rw [hpat]
    simpa [optStrTruthy] using hpat_ne
  have h4 : d.config.pattern.getD "" = pat := by rw [hpat]; rfl
  have h5 : d.config.group_index.getD 0 = gi := by rw [hgi]; rfl
  have hbound : ¬ (gi < 0 ∨ gi > (m.groups.length : Int)) := by omega
  have hgz : ¬ (gi = 0) := by omega
  have hres : extract_placeholder_value h repo.full_name repo.default_branch d.file_path
      d.method d.config = { value := Option.none, error := Option.none } := by
    unfold extract_placeholder_value
    simp only [h1, Bool.false_eq_true, if_false, h2]
    rw [hmethod]
    rw [if_pos rfl]
    rw [if_neg (by rw [h3]; intro hc; cases hc)]
    simp only [h4, hsearch, h5]
    rw [if_neg hbound]
    unfold pyGroupVal
    rw [if_neg hgz, hgroup]
    rfl
  refine ⟨hres, ?_⟩
  unfold resolve_all_placeholders_for_repo
  simp only [resolveGo, hvalid, Bool.false_eq_true, if_false, hres]
  simp only [optStrTruthy, Bool.false_eq_true, if_false]
  exact dget_dset_self _ _ _

/-- Host for the non-participating-group scenario: the pattern
`(a)|(b)` against content `a` matches with group 2 absent. -/
def hostGroupNone : Host :=
  { stubHost with
    getContents := fun _ _ _ => GetContentsRes.file "a" "sha-g"
    reSearch := fun _ _ => some { group0 := "a", groups := [some "a", Option.none] } }

def defGroupTwo : PhDef :=
  { name := "g", file_path := "f.txt", method := "Regex",
    config := { pattern := some "(a)|(b)", group_index := some 2 } }

theorem c10_nonparticipating_group_empty_witness :
    (hostGroupNone.reSearch "(a)|(b)" "a" =
        some { group0 := "a", groups := [some "a", Option.none] } ∧
      phDefInvalid defGroupTwo = false) ∧
    (extract_placeholder_value hostGroupNone repoLegit.full_name repoLegit.default_branch
        defGroupTwo.file_path defGroupTwo.method defGroupTwo.config =
      { value := Option.none, error := Option.none } ∧
      dget (resolve_all_placeholders_for_repo hostGroupNone repoLegit [defGroupTwo]
        "ts").1 "g" = some (some "")) :=
  ⟨⟨rfl, rfl⟩,
    c10_nonparticipating_group_empty hostGroupNone repoLegit defGroupTwo "a" "sha-g"
      "(a)|(b)" { group0 := "a", groups := [some "a", Option.none] } 2 "ts"
      rfl rfl rfl rfl (by decide) rfl rfl (by decide) (by decide) rfl rfl⟩

theorem c5_first_non_null_wins_witness :
    (["a.missing", "a.b"].findSome? (fun p =>
        match (get_value_from_path yamlDocAB5 p).1 with
        | PyVal.none => Option.none
        | w => some w) = some (PyVal.int 5)) ∧
    yaml_extract_from_data yamlDocAB5 "f.yaml" ["a.missing", "a.b"] =
      { value := some "5", error := Option.none } :=
  ⟨rfl,
    c5_first_non_null_wins yamlDocAB5 "f.yaml" ["a.missing", "a.b"] (PyVal.int 5)
      rfl rfl⟩

/-! ## Action parameter processing

Source: `_process_action_params` (src/action_processing.py, lines
85-134).  The raw parameter dict is an ordered association list whose
values are `Option String` (a missing form value is Python `None`). -/

/-- Python `params.find` lookup preserving the present-with-`None`
versus absent distinction. -/
def pget (params : List (String × Option String)) (k : String) : Option (Option String) :=
  (params.find? (fun kv => kv.1 = k)).map (fun kv => kv.2)

/-- Python dict assignment preserving insertion order (appends when the
key is new). -/
def psetGo : List (String × Option String) → String → Option String →
    List (String × Option String)
  | [], k, v => [(k, v)]
  | kv :: rest, k, v =>
    if kv.1 = k then (k, v) :: rest else kv :: psetGo rest k v

/-- Python `dict.get(k)`: `None` when the key is absent or stored as
`None`. -/
def mget (m : List (String × Option String)) (k : String) : Option String :=
  match dget m k with
  | some v => v
  | Option.none => Option.none

def pap_phase1_msg (k orig new : String) : String :=
  s!"- INFO: Param (Phase 1) \x27{k}\x27 (\x27{orig}\x27) processed to: \x27{new}\x27"

def pap_warn_msg (k orig : String) : String :=
  s!"- WARNING: Param (Phase 1) \x27{k}\x27 (\x27{orig}\x27) might contain an unresolved or mistyped user-defined placeholder."

def pap_fp_msg (v : String) : String :=
  s!"- INFO: Built-in placeholder \x27\x7b\x7bfile_path\x7d\x7d\x27 (for messages) set to: \x27{v}\x27"

def pap_phase2_msg (k orig new : String) : String :=
  s!"- INFO: Param (Phase 2) \x27{k}\x27 (\x27{orig}\x27) re-processed to: \x27{new}\x27"

def reservedForLogging : List String :=
  ["repo_name", "repo_full_name", "repo_default_branch", "timestamp", "file_path"]

def process_action_params (action_params_from_form : List (String × Option String))
    (resolved_placeholders : List (String × Option String))
    (param_keys_for_phase2_reprocessing : List String) :
    List (String × Option String) × List String :=
  let defined_ph_names := (resolved_placeholders.map (fun kv => kv.1)).filter
    (fun n => n ∉ reservedForLogging)
  -- Phase 1: substitute into every string-valued parameter.
  let step1 := fun (acc : List (String × Option String) × List String)
      (kv : String × Option String) =>
    match kv.2 with
    | some s =>
      let new := process_placeholders_in_string s resolved_placeholders
      if new ≠ s then
        (acc.1 ++ [(kv.1, some new)], acc.2 ++ [pap_phase1_msg kv.1 s new])
      else if defined_ph_names.any
          (fun n => strContains s ("\x7b\x7b" ++ n ++ "\x7d\x7d")) then
        (acc.1 ++ [(kv.1, some new)], acc.2 ++ [pap_warn_msg kv.1 s])
      else
        (acc.1 ++ [(kv.1, some new)], acc.2)
    | Option.none => (acc.1 ++ [kv], acc.2)
  let r1 := action_params_from_form.foldl step1 ([], [])
  let processed := r1.1
  -- Inject the processed file path into the map under `file_path`.
  let pfp : Option String :=
    match pget processed "file_path" with
    | some v => v
    | Option.none =>
      match pget processed "target_file_path" with
      | some v => v
      | Option.none => some ""
  let original := mget resolved_placeholders "file_path"
  let updated := dset resolved_placeholders "file_path" pfp
  let log2 := if original ≠ pfp then r1.2 ++ [pap_fp_msg (pyShowOpt pfp)] else r1.2
  -- Phase 2: re-substitute the designated keys against the updated map.
  let step2 := fun (acc : List (String × Option String) × List String) (k : String) =>
    match pget acc.1 k with
    | some (some s) =>
      let new := process_placeholders_in_string s updated
      if new ≠ s then (psetGo acc.1 k (some new), acc.2 ++ [pap_phase2_msg k s new])
      else (psetGo acc.1 k (some new), acc.2)
    | _ => acc
  param_keys_for_phase2_reprocessing.foldl step2 (processed, log2)

/-! ## create_branch

Source: `create_branch` (src/github_utils.py, lines 229-345). -/

def create_branch (h : Host) (repo_full_name new_branch_name source_branch_name : String) :
    BranchOperationResult :=
  let nb := if new_branch_name ≠ "" then new_branch_name else "[BRANCH_NAME_MISSING]"
  let sb := if source_branch_name ≠ "" then source_branch_name else "[SOURCE_BRANCH_NAME_MISSING]"
  match h.getRepoRes repo_full_name with
  | Except.error e =>
    -- outer handlers; `repo` is None at this point
    if e.unknownObj then
      { success := false, message := some s!"Repository \x27{repo_full_name}\x27 not found." }
    else
      { success := false,
        message := some s!"GitHub API error during branch operation for \x27{nb}\x27 in \x27{repo_full_name}\x27. Details: {e.message}" }
  | Except.ok _ =>
    match h.getBranch repo_full_name nb with
    | Except.ok _ =>
      { success := true, message := some s!"Using existing branch \x27{nb}\x27." }
    | Except.error e =>
      if e.unknownObj || e.status = 404 then
        -- branch does not exist; create it from the source branch
        match h.getBranch repo_full_name sb with
        | Except.error e2 =>
          if e2.unknownObj then
            { success := false,
              message := some s!"Source branch \x27{sb}\x27 not found in \x27{repo_full_name}\x27." }
          else
            { success := false,
              message := some s!"GitHub API error getting source branch \x27{sb}\x27." }
        | Except.ok source_branch_sha =>
          if source_branch_sha = "" then
            { success := false,
              message := some s!"Failed to obtain SHA for source branch \x27{sb}\x27." }
          else
            match h.createGitRef repo_full_name ("refs/heads/" ++ nb) source_branch_sha with
            | Except.ok _ =>
              { success := true, message := some s!"Branch \x27{nb}\x27 created successfully." }
            | Except.error e3 =>
              if e3.status = 422 ∧ strContains e3.message "Reference already exists" then
                match h.getBranch repo_full_name nb with
                | Except.ok _ =>
                  { success := true,
                    message := some s!"Using existing branch \x27{nb}\x27 (confirmed by create_git_ref failure)." }
                | Except.error _ =>
                  { success := false,
                    message := some s!"Branch \x27{nb}\x27 seems to exist but could not be fetched after create_git_ref reported it exists." }
              else
                -- re-raised and caught by the outer GithubException handler
                { success := false,
                  message := some s!"GitHub API error during branch operation for \x27{nb}\x27 in \x27{repo_full_name}\x27. Details: {e3.message}" }
      else
        { success := false,
          message := some s!"Error checking for existing branch \x27{nb}\x27." }

/-! ## delete_file

Source: `delete_file` (src/github_utils.py, lines 347-382). -/

def delete_file_exn_result (repo_full_name file_path branch_name : String) (e : GhExn) :
    FileOperationStatus :=
  if e.unknownObj then
    { success := false,
      message := some s!"Error deleting file \x27{file_path}\x27 in \x27{repo_full_name}\x27 on branch \x27{branch_name}\x27. Resource not found or SHA mismatch. Details: {e.message}" }
  else
    { success := false,
      message := some s!"GitHub API error deleting file \x27{file_path}\x27 in \x27{repo_full_name}\x27: {e.message} (Status: {e.status})" }

def delete_file (h : Host) (repo_full_name file_path : String) (commit_message : Option String)
    (branch_name sha : String) : FileOperationStatus :=
  match h.getRepoRes repo_full_name with
  | Except.error e => delete_file_exn_result repo_full_name file_path branch_name e
  | Except.ok _ =>
    match h.deleteFileOp repo_full_name file_path commit_message branch_name sha with
    | Except.ok _ => { success := true }
    | Except.error e => delete_file_exn_result repo_full_name file_path branch_name e

/-! ## create_pull_request

Source: `create_pull_request` (src/github_utils.py, lines 384-460). -/

/-- `e.data["message"]`, replaced by the joined non-empty per-error
messages when `e.data["errors"]` is non-empty. -/
def gh_error_detail (e : GhExn) : String :=
  if e.errors ≠ [] then
    String.intercalate "; " (e.errors.filter (fun s => s ≠ ""))
  else e.message

def pr_exists_msg (head base : String) : String :=
  s!"Pull Request already exists for branch \x27{head}\x27 targeting \x27{base}\x27."

def pr_api_error_msg (full head base detail : String) (status : Int) : String :=
  s!"GitHub API error creating pull request in \x27{full}\x27 (head: \x27{head}\x27, base: \x27{base}\x27): {detail} (Status: {status})"

def pr_no_commits_msg (head base detail : String) : String :=
  s!"No new commits in \x27{head}\x27 to create a Pull Request against \x27{base}\x27. {detail}"

/-- The `except github.GithubException` handler of
`create_pull_request`. -/
def create_pull_request_handler (h : Host) (full head base : String) (e : GhExn) :
    PullRequestResult :=
  let detail := gh_error_detail e
  if strContains detail "No commits between" && strContains detail "and" then
    { html_url := Option.none, message := some (pr_no_commits_msg head base detail) }
  else if strContains detail "A pull request already exists" then
    match h.listPulls full ((h.ownerLogin full) ++ ":" ++ head) base with
    | Except.ok (u :: _) =>
      { html_url := some u, message := some (pr_exists_msg head base) }
    | _ =>
      { html_url := Option.none,
        message := some (pr_api_error_msg full head base detail e.status) }
  else
    { html_url := Option.none,
      message := some (pr_api_error_msg full head base detail e.status) }

def create_pull_request (h : Host) (repo_full_name head_branch base_branch : String)
    (title body : Option String) : PullRequestResult :=
  match h.getRepoRes repo_full_name with
  | Except.error e =>
    create_pull_request_handler h repo_full_name head_branch base_branch e
  | Except.ok _ =>
    let owner_login := h.ownerLogin repo_full_name
    match h.listPulls repo_full_name (owner_login ++ ":" ++ head_branch) base_branch with
    | Except.error e =>
      create_pull_request_handler h repo_full_name head_branch base_branch e
    | Except.ok urls =>
      match urls.head? with
      | some u =>
        { html_url := some u, message := some (pr_exists_msg head_branch base_branch) }
      | Option.none =>
        match h.createPull repo_full_name title body head_branch base_branch with
        | Except.ok url => { html_url := some url }
        | Except.error e =>
          create_pull_request_handler h repo_full_name head_branch base_branch e

/-! ## update_file

Source: `update_file` (src/github_utils.py, lines 462-735).  The
`current_sha_from_app` parameter is kept for signature fidelity but is
superseded in the source by the initial target-branch check. -/

/-- Step 1: determine the blob sha and existence of the file on the
target branch (`(sha, exists)`), or fail. -/
def uf_check_target (h : Host) (full path branch : String) :
    Except FileUpdateResult (Option String × Bool) :=
  match h.getContents full path branch with
  | GetContentsRes.dirListing =>
    Except.error
      { success := false,
        message := some s!"Path \x27{path}\x27 on target branch \x27{branch}\x27 is a directory." }
  | GetContentsRes.file _ sha => Except.ok (some sha, true)
  | GetContentsRes.dirFile _ => Except.ok (Option.none, false)
  | GetContentsRes.submodule _ => Except.ok (Option.none, false)
  | GetContentsRes.exn e =>
    if e.unknownObj then Except.ok (Option.none, false)
    else
      Except.error
        { success := false,
          message := some s!"Error checking file \x27{path}\x27 on target branch \x27{branch}\x27: {e.message}" }

/-- Search/replace content fetch: the target branch first, then the
default-branch fallback. -/
def uf_fetch_sr_content (h : Host) (full path branch : String)
    (fallback : Option String) (file_exists_on_branch : Bool) :
    Except FileUpdateResult String :=
  match (if file_exists_on_branch then
      match h.getContents full path branch with
      | GetContentsRes.file c _ => Except.ok (some c)
      | GetContentsRes.dirListing =>
        Except.error
          ({ success := false,
             message := some s!"Path \x27{path}\x27 on target branch \x27{branch}\x27 is a directory." } :
            FileUpdateResult)
      | GetContentsRes.dirFile _ =>
        Except.error
          { success := false,
            message := some s!"Could not decode content from \x27{path}\x27 on target branch \x27{branch}\x27." }
      | GetContentsRes.submodule _ =>
        Except.error
          { success := false,
            message := some s!"Could not decode content from \x27{path}\x27 on target branch \x27{branch}\x27." }
      | GetContentsRes.exn e =>
        if e.unknownObj then
          Except.error
            { success := false,
              message := some s!"File \x27{path}\x27 disappeared from target branch \x27{branch}\x27." }
        else
          Except.error
            { success := false,
              message := some s!"Error reading file \x27{path}\x27 from target branch \x27{branch}\x27." }
    else Except.ok Option.none) with
  | Except.error r => Except.error r
  | Except.ok (some c) => Except.ok c
  | Except.ok Option.none =>
    -- not fetched from the target branch; try the default-branch fallback
    match (if optStrTruthy fallback then
        match h.getContents full path (fallback.getD "") with
        | GetContentsRes.file c _ => Except.ok (some c)
        | GetContentsRes.dirListing =>
          let fb := fallback.getD ""
          Except.error
            ({ success := false,
               message := some s!"Path \x27{path}\x27 on default branch \x27{fb}\x27 is a directory." } :
              FileUpdateResult)
        | GetContentsRes.dirFile _ => Except.ok Option.none
        | GetContentsRes.submodule _ => Except.ok Option.none
        | GetContentsRes.exn _ => Except.ok Option.none
      else Except.ok Option.none) with
    | Except.error r => Except.error r
    | Except.ok (some c) => Except.ok c
    | Except.ok Option.none =>
      Except.error
        { success := false,
          message := some s!"File \x27{path}\x27 not found or content inaccessible for Search/Replace." }

/-- Step 2: compute the content to write. -/
def uf_prepare_content (h : Host) (full path branch new_content_str : String)
    (update_mode : String) (search_string replace_with_string : Option String)
    (is_regex replace_all : Bool) (fallback : Option String)
    (file_exists_on_branch : Bool) : Except FileUpdateResult String :=
  if update_mode = "Search and replace string" then
    match search_string, replace_with_string with
    | some search, some repl =>
      match uf_fetch_sr_content h full path branch fallback file_exists_on_branch with
      | Except.error r => Except.error r
      | Except.ok current =>
        if is_regex then
          match h.reSub search repl current (if replace_all then 0 else 1) with
          | Except.ok res => Except.ok res
          | Except.error e =>
            Except.error
              { success := false,
                message := some s!"Invalid regular expression: {e}" }
        else Except.ok (pyReplace current search repl replace_all)
    | _, _ =>
      Except.error
        { success := false,
          message := some "Search string and replace string must be provided for \x27Search and replace string\x27 mode." }
  else if update_mode = "Replace entire content" then Except.ok new_content_str
  else
    Except.error
      { success := false,
        message := some s!"Invalid update mode: {update_mode}" }

/-- The 409-conflict handler: with `force_update` in search/replace
mode, delete at the current sha and recreate; otherwise report. -/
def uf_write_error (h : Host) (full path : String) (commit_message : Option String)
    (content branch : String) (shaOnBranch : Option String) (update_mode : String)
    (force_update : Bool) (e : GhExn) : FileUpdateResult :=
  if e.status = 409 ∧ force_update = true ∧ update_mode = "Search and replace string" then
    let refetched : Except FileUpdateResult String :=
      if optStrTruthy shaOnBranch then Except.ok (shaOnBranch.getD "")
      else
        match h.getContents full path branch with
        | GetContentsRes.file _ s => Except.ok s
        | GetContentsRes.dirFile s => Except.ok s
        | GetContentsRes.submodule s => Except.ok s
        | GetContentsRes.dirListing =>
          Except.error
            { success := false,
              message := some s!"Conflict on \x27{path}\x27. Force update failed: Force Update: Could not re-fetch current SHA of \x27{path}\x27 for deletion after 409. Aborting force update." }
        | GetContentsRes.exn e2 =>
          Except.error
            { success := false,
              message := some s!"Conflict on \x27{path}\x27. Force update attempt failed: {e2.message}" }
    match refetched with
    | Except.error r => r
    | Except.ok sha_for_delete =>
      if sha_for_delete = "" then
        { success := false,
          message := some s!"Conflict on \x27{path}\x27. Force update failed: Force Update: SHA for deletion of \x27{path}\x27 is still None after 409. Cannot proceed with delete. Aborting." }
      else
        match h.deleteFileOp full path
          (some s!"Forcing update: Deleting \x27{path}\x27 before recreate") branch sha_for_delete with
        | Except.error e2 =>
          { success := false,
            message := some s!"Conflict on \x27{path}\x27. Force update attempt failed: {e2.message}" }
        | Except.ok _ =>
          match h.createFileOp full path commit_message content branch with
          | Except.ok new_sha =>
            { success := true,
              message := some s!"File \x27{path}\x27 force updated (deleted and recreated).",
              new_sha := some new_sha }
          | Except.error e2 =>
            { success := false,
              message := some s!"Conflict on \x27{path}\x27. Force update attempt failed: {e2.message}" }
  else
    { success := false,
      message := some s!"GitHub API error for \x27{path}\x27 (Status: {e.status}): {e.message}" }

/-- Step 3: update when the file exists on the target branch, create
otherwise. -/
def uf_write (h : Host) (full path : String) (commit_message : Option String)
    (content branch : String) (shaOnBranch : Option String) (update_mode : String)
    (force_update : Bool) : FileUpdateResult :=
  if optStrTruthy shaOnBranch then
    match h.updateFileOp full path commit_message content (shaOnBranch.getD "") branch with
    | Except.ok new_sha =>
      { success := true, message := some s!"File \x27{path}\x27 updated successfully.",
        new_sha := some new_sha }
    | Except.error e =>
      uf_write_error h full path commit_message content branch shaOnBranch update_mode
        force_update e
  else
    match h.createFileOp full path commit_message content branch with
    | Except.ok new_sha =>
      { success := true, message := some s!"File \x27{path}\x27 created successfully.",
        new_sha := some new_sha }
    | Except.error e =>
      uf_write_error h full path commit_message content branch shaOnBranch update_mode
        force_update e

def update_file (h : Host) (repo_full_name file_path new_content_str : String)
    (commit_message : Option String) (branch_name : String)
    (current_sha_from_app : Option String) (update_mode : String)
    (search_string replace_with_string : Option String)
    (is_regex replace_all : Bool) (default_branch_for_sr_fallback : Option String)
    (force_update : Bool) : FileUpdateResult :=
  match uf_check_target h repo_full_name file_path branch_name with
  | Except.error r => r
  | Except.ok (shaOnBranch, file_exists_on_branch) =>
    match uf_prepare_content h repo_full_name file_path branch_name new_content_str
      update_mode search_string replace_with_string is_regex replace_all
      default_branch_for_sr_fallback file_exists_on_branch with
    | Except.error r => r
    | Except.ok content_to_write =>
      uf_write h repo_full_name file_path commit_message content_to_write branch_name
        shaOnBranch update_mode force_update

/-! ## find_target_files

Source: `find_target_files` (src/github_utils.py, lines 737-879). -/

/-- Error detail for the search-code failure (raw join, no
empty-message filter, unlike the pull-request handler). -/
def ftf_error_detail (e : GhExn) : String :=
  if e.errors ≠ [] then String.intercalate "; " e.errors else e.message

/-- `path.split("/")[-1]`. -/
def lastSegment (p : String) : String :=
  match (pySplit p "/").reverse with
  | x :: _ => x
  | [] => p

/-- The search-code result loop with its 100-result cap; a fetch
exception skips the item without counting it. -/
def searchLoop (h : Host) (full branch : String) :
    List String → Nat → List TargetFile → List TargetFile
  | [], _, acc => acc
  | p :: ps, count, acc =>
    if count ≥ 100 then acc
    else
      match h.getContents full p branch with
      | GetContentsRes.file _ sha => searchLoop h full branch ps (count + 1) (acc ++ [⟨p, some sha⟩])
      | GetContentsRes.dirFile sha => searchLoop h full branch ps (count + 1) (acc ++ [⟨p, some sha⟩])
      | GetContentsRes.submodule sha => searchLoop h full branch ps (count + 1) (acc ++ [⟨p, some sha⟩])
      | GetContentsRes.dirListing => searchLoop h full branch ps (count + 1) acc
      | GetContentsRes.exn _ => searchLoop h full branch ps count acc

/-- The git-tree walk with the scope filter, the filename glob and the
200-result break. -/
def treeLoop (h : Host) (full branch search_dir filterPat : String) :
    List TreeElem → List TargetFile → List TargetFile
  | [], acc => acc
  | el :: rest, acc =>
    if el.type = "blob" then
      let skip : Bool :=
        if search_dir ≠ "" ∧ ¬ pyStartsWith el.path (pyStripSlash search_dir ++ "/") then
          if pyStripSlash search_dir ≠ el.path then
            if ¬ (search_dir = "" ∧ ¬ strContains el.path "/") then true else false
          else false
        else false
      if skip then treeLoop h full branch search_dir filterPat rest acc
      else if h.fnmatchFn (lastSegment el.path) filterPat then
        match h.getContents full el.path branch with
        | GetContentsRes.file _ sha =>
          let acc2 := acc ++ [⟨el.path, some sha⟩]
          if acc2.length ≥ 200 then acc2
          else treeLoop h full branch search_dir filterPat rest acc2
        | GetContentsRes.dirFile sha =>
          let acc2 := acc ++ [⟨el.path, some sha⟩]
          if acc2.length ≥ 200 then acc2
          else treeLoop h full branch search_dir filterPat rest acc2
        | GetContentsRes.submodule sha =>
          let acc2 := acc ++ [⟨el.path, some sha⟩]
          if acc2.length ≥ 200 then acc2
          else treeLoop h full branch search_dir filterPat rest acc2
        | GetContentsRes.dirListing =>
          if acc.length ≥ 200 then acc
          else treeLoop h full branch search_dir filterPat rest acc
        | GetContentsRes.exn _ => treeLoop h full branch search_dir filterPat rest acc
      else treeLoop h full branch search_dir filterPat rest acc
    else treeLoop h full branch search_dir filterPat rest acc

/-- Scenario A: a target path without a trailing slash may be a direct
file; `some` is an early return, `none` falls through to the general
search. -/
def ftf_scenario_a (h : Host) (repo_full_name target_branch target_path_input
    content_query_input : String) : Option TargetFilesResult :=
  if target_path_input ≠ "" ∧ ¬ pyEndsWith target_path_input "/" then
    match h.getContents repo_full_name target_path_input target_branch with
    | GetContentsRes.dirListing => Option.none
    | GetContentsRes.exn e =>
      if e.unknownObj then Option.none
      else
        some { error := some s!"GitHub API error checking path \x27{target_path_input}\x27: {e.message}" }
    | GetContentsRes.file _ sha =>
      if content_query_input ≠ "" then
        let fcr := get_file_content h repo_full_name target_path_input (some target_branch)
        if optStrTruthy fcr.error then
          let e := pyShowOpt fcr.error
          some { error := some s!"Error reading content of alleged file \x27{target_path_input}\x27: {e}" }
        else
          match fcr.content with
          | Option.none => some {}
          | some c =>
            if strContains c content_query_input then
              some { files := [⟨target_path_input, some sha⟩] }
            else some {}
      else some { files := [⟨target_path_input, some sha⟩] }
    | GetContentsRes.dirFile sha =>
      if content_query_input ≠ "" then
        let fcr := get_file_content h repo_full_name target_path_input (some target_branch)
        if optStrTruthy fcr.error then
          let e := pyShowOpt fcr.error
          some { error := some s!"Error reading content of alleged file \x27{target_path_input}\x27: {e}" }
        else
          match fcr.content with
          | Option.none => some {}
          | some c =>
            if strContains c content_query_input then
              some { files := [⟨target_path_input, some sha⟩] }
            else some {}
      else some { files := [⟨target_path_input, some sha⟩] }
    | GetContentsRes.submodule sha =>
      if content_query_input ≠ "" then
        let fcr := get_file_content h repo_full_name target_path_input (some target_branch)
        if optStrTruthy fcr.error then
          let e := pyShowOpt fcr.error
          some { error := some s!"Error reading content of alleged file \x27{target_path_input}\x27: {e}" }
        else
          match fcr.content with
          | Option.none => some {}
          | some c =>
            if strContains c content_query_input then
              some { files := [⟨target_path_input, some sha⟩] }
            else some {}
      else some { files := [⟨target_path_input, some sha⟩] }
  else Option.none

def find_target_files (h : Host) (repo_full_name target_branch : String)
    (target_path_input filename_filter_input content_query_input : String) :
    TargetFilesResult :=
  match h.getRepoRes repo_full_name with
  | Except.error e =>
    if e.unknownObj then
      { error := some s!"Repository \x27{repo_full_name}\x27 not found." }
    else
      { error := some s!"GitHub API error getting repo \x27{repo_full_name}\x27: {e.message}" }
  | Except.ok _ =>
    match ftf_scenario_a h repo_full_name target_branch target_path_input
      content_query_input with
    | some r => r
    | Option.none =>
      let search_dir := if target_path_input ≠ "" then pyStripSlash target_path_input else ""
      if content_query_input ≠ "" then
        let query_parts := [content_query_input, s!"repo:{repo_full_name}"] ++
          (if search_dir ≠ "" then [s!"path:{search_dir}"] else []) ++
          (if filename_filter_input ≠ "" then [s!"filename:{filename_filter_input}"] else [])
        let final_query := String.intercalate " " query_parts
        match h.searchCode final_query with
        | Except.error e =>
          let detail := ftf_error_detail e
          { error := some s!"GitHub API error (search_code): {detail} (Query: {final_query})" }
        | Except.ok items =>
          { files := searchLoop h repo_full_name target_branch items 0 [] }
      else if filename_filter_input ≠ "" then
        match h.getBranch repo_full_name target_branch with
        | Except.error e =>
          { error := some s!"GitHub API error getting git tree: {e.message}" }
        | Except.ok branch_commit_sha =>
          match h.getGitTree repo_full_name branch_commit_sha with
          | Except.error e =>
            { error := some s!"GitHub API error getting git tree: {e.message}" }
          | Except.ok tree =>
            if tree = [] then
              { error := some "Could not retrieve file tree for the repository/branch." }
            else
              { files := treeLoop h repo_full_name target_branch search_dir
                  filename_filter_input tree [] }
      else
        { error := some "Insufficient criteria: Please specify a filename filter or content to search, or an exact file path." }

/-! ## The batch action executors

Sources: `execute_remove_file_action` (src/action_processing.py, lines
138-250), `execute_update_file_action` (lines 253-567) and
`execute_add_new_file_action` (lines 570-713).  The batch timestamp
(`datetime.now()`) is an input.  Log lines that go only to the Python
`logger` (not to the per-repository action log) are not modelled. -/

/-- `process_placeholders_in_string` applied to a possibly-`None` form
value (non-strings pass through unchanged). -/
def processOpt (o : Option String) (m : List (String × Option String)) : Option String :=
  o.map (fun s => process_placeholders_in_string s m)

/-- `params.get(k, dflt)`: the stored value when the key is present
(even when it is `None`), the default otherwise. -/
def pgetD (params : List (String × Option String)) (k : String) (dflt : Option String) :
    Option String :=
  match pget params k with
  | some v => v
  | Option.none => dflt

structure RemoveActionConfig where
  rf_file_path : Option String := Option.none
  rf_branch_name : Option String := Option.none
  rf_commit_message : Option String := Option.none
  rf_pr_title : Option String := Option.none
  rf_pr_body : Option String := Option.none

structure UpdateActionConfig where
  uf_file_path_input : Option String := Option.none
  uf_branch_name_input : Option String := Option.none
  uf_commit_message_input : Option String := Option.none
  uf_pr_title_input : Option String := Option.none
  uf_pr_body_input : Option String := Option.none
  uf_update_mode : Option String := Option.none
  uf_file_content_area : Option String := Option.none
  uf_search_string_input : Option String := Option.none
  uf_replace_with_string_input : Option String := Option.none
  uf_is_regex_checkbox : Option Bool := Option.none
  uf_replace_all_checkbox : Option Bool := Option.none
  uf_target_path_input : Option String := Option.none
  uf_filename_filter_input : Option String := Option.none
  uf_content_query_input : Option String := Option.none
  uc_force_update : Option Bool := Option.none

structure AddActionConfig where
  anf_file_path_input : Option String := Option.none
  anf_file_content_area : Option String := Option.none
  anf_branch_name_input : Option String := Option.none
  anf_commit_message_input : Option String := Option.none
  anf_pr_title_input : Option String := Option.none
  anf_pr_body_input : Option String := Option.none

def branch_missing_msg (b d : String) : String :=
  s!"- INFO: Branch \x27{b}\x27 does not exist. Attempting to create it from \x27{d}\x27."

def branch_op_msg (m : String) : String := s!"- INFO: Branch creation op: {m}"

def branch_existing_msg (b : String) : String := s!"- INFO: Using existing branch \x27{b}\x27."

def branch_check_fail_msg (b e : String) : String :=
  s!"- ERROR: Could not check/create branch \x27{b}\x27: {e}"

/-! ### Remove executor -/

def remove_header (repo : Repository) : String :=
  let f := repo.full_name
  let d := repo.default_branch
  s!"Action: Remove File on repo {f} (default branch: {d})"

/-- The try-block around `g.get_repo` + `repo_api.get_git_ref` in the
Remove executor: an `UnknownObjectException` from either call enters
the branch-creation path, any other exception is the generic failure;
the payload is the accumulated log. -/
def removeEnsureBranch (h : Host) (repo_info : Repository) (target_branch : String)
    (log : List String) : Except (List String) (List String) :=
  let createPath : Except (List String) (List String) :=
    let log2 := log ++ [branch_missing_msg target_branch repo_info.default_branch]
    let bres := create_branch h repo_info.full_name target_branch repo_info.default_branch
    let m := pyShowOpt bres.message
    let log3 := log2 ++ [branch_op_msg m]
    if bres.success = false then Except.error log3 else Except.ok log3
  match h.getRepoRes repo_info.full_name with
  | Except.error e =>
    if e.unknownObj then createPath
    else Except.error (log ++ [branch_check_fail_msg target_branch e.message])
  | Except.ok _ =>
    match h.getGitRef repo_info.full_name ("heads/" ++ target_branch) with
    | Except.ok _ => Except.ok (log ++ [branch_existing_msg target_branch])
    | Except.error e =>
      if e.unknownObj then createPath
      else Except.error (log ++ [branch_check_fail_msg target_branch e.message])

def removeRepoBody (h : Host) (defined_placeholders : List PhDef)
    (cfg : RemoveActionConfig) (timestamp_str : String) (repo_info : Repository) :
    ActionResult :=
  let default_branch_name_template := cfg.rf_branch_name.getD ("remove-file-" ++ timestamp_str)
  let log0 := [remove_header repo_info]
  let rres := resolve_all_placeholders_for_repo h repo_info defined_placeholders timestamp_str
  let resolved_ph := rres.1
  let log1 := log0 ++ rres.2.1
  if rres.2.2 = false then
    { repo := repo_info.name, success := false, message := joinLines log1 }
  else
    let params0 : List (String × Option String) :=
      [("file_path", cfg.rf_file_path), ("branch_name", some default_branch_name_template),
        ("commit_message", cfg.rf_commit_message), ("pr_title", cfg.rf_pr_title),
        ("pr_body", cfg.rf_pr_body)]
    let pres := process_action_params params0 resolved_ph
      ["branch_name", "commit_message", "pr_title", "pr_body"]
    let processed_params := pres.1
    let log2 := log1 ++ pres.2
    let tfp := pgetD processed_params "file_path" (some "")
    if optStrTruthy tfp = false then
      { repo := repo_info.name, success := false,
        message := joinLines (log2 ++ ["- ERROR: Processed file path is empty. Skipping repo."]) }
    else
      let target_file_path := tfp.getD ""
      let tb := pgetD processed_params "branch_name" Option.none
      let useFallback := optStrTruthy tb = false ∨ pyStrip (tb.getD "") = ""
      let target_branch :=
        if useFallback then "remove-file-fallback-" ++ timestamp_str else tb.getD ""
      let log3 :=
        if useFallback then
          log2 ++ [s!"- INFO: Target branch name was empty or invalid, defaulted to \x27{target_branch}\x27."]
        else log2
      match removeEnsureBranch h repo_info target_branch log3 with
      | Except.error log4 =>
        { repo := repo_info.name, success := false, message := joinLines log4 }
      | Except.ok log4 =>
        let log5 := log4 ++
          [s!"- INFO: Attempting to get SHA for file \x27{target_file_path}\x27 on branch \x27{target_branch}\x27."]
        let fcr := get_file_content h repo_info.full_name target_file_path (some target_branch)
        if optStrTruthy fcr.error ∨ optStrTruthy fcr.sha = false then
          let ereason := if optStrTruthy fcr.error then fcr.error.getD "" else "SHA not found"
          { repo := repo_info.name, success := false,
            message := joinLines (log5 ++
              [s!"- ERROR: Could not get SHA for file \x27{target_file_path}\x27: {ereason}. File may not exist on branch \x27{target_branch}\x27 or path is a directory."]) }
        else
          let sha := fcr.sha.getD ""
          let log6 := log5 ++
            [s!"- INFO: SHA for \x27{target_file_path}\x27 is \x27{sha}\x27. Proceeding with deletion."]
          let dres := delete_file h repo_info.full_name target_file_path
            (pgetD processed_params "commit_message" Option.none) target_branch sha
          let dmsg := if optStrTruthy dres.message then dres.message.getD ""
            else (if dres.success then "Successfully deleted" else "Failed")
          let log7 := log6 ++ [s!"- INFO: File deletion result: {dmsg}"]
          if dres.success = false then
            { repo := repo_info.name, success := false, message := joinLines log7 }
          else
            let pr := create_pull_request h repo_info.full_name target_branch
              repo_info.default_branch (pgetD processed_params "pr_title" Option.none)
              (pgetD processed_params "pr_body" Option.none)
            let prm := pyShowOpt pr.message
            let log8 := log7 ++ [s!"- INFO: PR creation: {prm}"]
            if optStrTruthy pr.html_url then
              { repo := repo_info.name, success := true, message := joinLines log8,
                pr_url := pr.html_url }
            else
              let base := joinLines log8
              let final :=
                if optStrTruthy pr.message then
                  let m := pr.message.getD ""
                  base ++ s!"\n- PR Status: {m}"
                else
                  base ++ "\n- WARNING: File operation successful, but PR status unclear (no URL and no message)."
              { repo := repo_info.name, success := true, message := final,
                pr_url := Option.none }

def removeGo (h : Host) (defs : List PhDef) (cfg : RemoveActionConfig) (ts : String)
    (acc : List ActionResult) : List Repository → List ActionResult
  | [] => acc
  | r :: rest => removeGo h defs cfg ts (acc ++ [removeRepoBody h defs cfg ts r]) rest

def execute_remove_file_action (h : Host) (selected_repo_infos : List Repository)
    (defined_placeholders : List PhDef) (action_config_from_form : RemoveActionConfig)
    (timestamp_str : String) : List ActionResult :=
  removeGo h defined_placeholders action_config_from_form timestamp_str [] selected_repo_infos

/-! ### Update executor -/

def update_header (repo : Repository) : String :=
  let f := repo.full_name
  let d := repo.default_branch
  s!"Action: Update/Create File(s) on repo {f} (default branch: {d})"

/-- Locate the target files (single explicit path or multi-file
criteria).  `Except.error` is an early per-repository result. -/
def updateLocate (h : Host) (cfg : UpdateActionConfig) (repo_info : Repository)
    (resolved_ph : List (String × Option String)) (log : List String) :
    Except ActionResult (List TargetFile × List String) :=
  let specific := pyStrip (cfg.uf_file_path_input.getD "")
  if specific ≠ "" then
    let resolved := process_placeholders_in_string specific resolved_ph
    let log1 := log ++
      [s!"- INFO: Specific target file path from form \x27{specific}\x27 resolved to \x27{resolved}\x27."]
    if resolved = "" then
      Except.error
        { repo := repo_info.name, success := false,
          message := joinLines (log1 ++ ["- ERROR: Resolved specific file path is empty. Skipping repo."]) }
    else
      let fcr := get_file_content h repo_info.full_name resolved (some repo_info.default_branch)
      if optStrTruthy fcr.error ∧
          strContains (pyLower (fcr.error.getD "")) "not found" = false then
        let e := fcr.error.getD ""
        let d := repo_info.default_branch
        Except.ok ([⟨resolved, fcr.sha⟩], log1 ++
          [s!"- WARNING: Could not get initial content/SHA for \x27{resolved}\x27 (branch: {d}): {e}. Will proceed assuming creation or targeted branch later."])
      else if optStrTruthy fcr.sha then
        let sha := fcr.sha.getD ""
        Except.ok ([⟨resolved, fcr.sha⟩], log1 ++
          [s!"- INFO: Confirmed \x27{resolved}\x27 exists on default branch. SHA: {sha}. Update will use target branch."])
      else
        Except.ok ([⟨resolved, Option.none⟩], log1 ++
          [s!"- INFO: File \x27{resolved}\x27 not found on default branch or no SHA. Will be treated as new/update on target branch."])
  else
    let fpath := process_placeholders_in_string (cfg.uf_target_path_input.getD "") resolved_ph
    let ffilter := process_placeholders_in_string (cfg.uf_filename_filter_input.getD "")
      resolved_ph
    let fquery := process_placeholders_in_string (cfg.uf_content_query_input.getD "")
      resolved_ph
    let log1 := log ++
      [s!"- INFO: Finding target files. Path: \x27{fpath}\x27, Filter: \x27{ffilter}\x27, Content Query: \x27{fquery}\x27."]
    if ffilter = "" ∧ fquery = "" ∧ pyStripSlash fpath = "" then
      Except.error
        { repo := repo_info.name, success := false,
          message := joinLines (log1 ++
            ["- ERROR: For multiple file updates, you must specify at least a target path, a filename filter, or a content query. Skipping repo."]) }
    else
      let tres := find_target_files h repo_info.full_name repo_info.default_branch fpath
        ffilter fquery
      if optStrTruthy tres.error then
        let e := tres.error.getD ""
        Except.error
          { repo := repo_info.name, success := false,
            message := joinLines (log1 ++
              [s!"- ERROR: Failed to find target files: {e}. Skipping repo."]) }
      else if tres.files = [] then
        Except.error
          { repo := repo_info.name, success := true,
            message := joinLines (log1 ++ ["- INFO: No files found matching criteria. Skipping repo."]) }
      else
        let n := tres.files.length
        let ps := pyReprStrList (tres.files.map (fun f => f.path))
        Except.ok (tres.files, log1 ++
          [s!"- INFO: Found {n} file(s) to update: {ps}"])

structure UpdLoopState where
  anyUpdated : Bool
  allOps : Bool
  log : List String
  lastPh : List (String × Option String)

/-- One iteration of the per-file loop of the Update executor. -/
def update_file_step (h : Host) (cfg : UpdateActionConfig) (repo_info : Repository)
    (branch_to_operate_on : String) (resolved_ph : List (String × Option String))
    (st : UpdLoopState) (f : TargetFile) : UpdLoopState :=
  let fp := f.path
  let log1 := st.log ++
    ["---", s!"- INFO: Processing file: \x27{fp}\x27 on branch \x27{branch_to_operate_on}\x27"]
  let per_file_ph := dset resolved_ph "file_path" (some f.path)
  let final_commit_msg := processOpt cfg.uf_commit_message_input per_file_ph
  let shaTxt := if optStrTruthy f.sha then f.sha.getD "" else "None (will be fetched/created)"
  let shaLog := s!"- INFO: SHA for \x27{fp}\x27 (before update on \x27{branch_to_operate_on}\x27): {shaTxt}"
  match cfg.uf_update_mode with
  | some "Replace entire content" =>
    let raw := cfg.uf_file_content_area.getD ""
    let content := process_placeholders_in_string raw per_file_ph
    let n := content.length
    let log2 := log1 ++
      [s!"- INFO: Update Mode: Replace entire content. Processed content length: {n} chars.", shaLog]
    let ures := update_file h repo_info.full_name f.path content final_commit_msg
      branch_to_operate_on f.sha "Replace entire content" Option.none Option.none
      (cfg.uf_is_regex_checkbox.getD false) (cfg.uf_replace_all_checkbox.getD true)
      (some repo_info.default_branch) false
    if ures.success then
      let m := pyShowOpt ures.message
      let s := pyShowOpt ures.new_sha
      { anyUpdated := true, allOps := st.allOps,
        log := log2 ++ [s!"- SUCCESS: File \x27{fp}\x27 processed. {m} New SHA: {s}"],
        lastPh := per_file_ph }
    else
      let m := pyShowOpt ures.message
      { anyUpdated := st.anyUpdated, allOps := false,
        log := log2 ++ [s!"- ERROR: Failed to process file \x27{fp}\x27: {m}"],
        lastPh := per_file_ph }
  | some "Search and replace string" =>
    let search := process_placeholders_in_string (cfg.uf_search_string_input.getD "")
      per_file_ph
    let repl := process_placeholders_in_string (cfg.uf_replace_with_string_input.getD "")
      per_file_ph
    let rgx := pyShowOptBool cfg.uf_is_regex_checkbox
    let rall := pyShowOptBool cfg.uf_replace_all_checkbox
    let force_flag := cfg.uc_force_update.getD false
    let ftxt := if force_flag then "True" else "False"
    let log2 := log1 ++
      [s!"- INFO: Update Mode: Search/Replace. Search: \x27{search}\x27, Replace: \x27{repl}\x27, Regex: {rgx}, All: {rall}",
        s!"- INFO: Force update on conflict: {ftxt}", shaLog]
    let ures := update_file h repo_info.full_name f.path "" final_commit_msg
      branch_to_operate_on f.sha "Search and replace string" (some search) (some repl)
      (cfg.uf_is_regex_checkbox.getD false) (cfg.uf_replace_all_checkbox.getD true)
      (some repo_info.default_branch) force_flag
    if ures.success then
      let m := pyShowOpt ures.message
      let s := pyShowOpt ures.new_sha
      { anyUpdated := true, allOps := st.allOps,
        log := log2 ++ [s!"- SUCCESS: File \x27{fp}\x27 processed. {m} New SHA: {s}"],
        lastPh := per_file_ph }
    else
      let m := pyShowOpt ures.message
      { anyUpdated := st.anyUpdated, allOps := false,
        log := log2 ++ [s!"- ERROR: Failed to process file \x27{fp}\x27: {m}"],
        lastPh := per_file_ph }
  | other =>
    let m := pyShowOpt other
    { anyUpdated := st.anyUpdated, allOps := false,
      log := log1 ++ [s!"- ERROR: Unknown update mode \x27{m}\x27 for file \x27{fp}\x27. Skipping this file."],
      lastPh := per_file_ph }

def update_files_fold (h : Host) (cfg : UpdateActionConfig) (repo_info : Repository)
    (branch_to_operate_on : String) (resolved_ph : List (String × Option String))
    (st0 : UpdLoopState) (files : List TargetFile) : UpdLoopState :=
  files.foldl (update_file_step h cfg repo_info branch_to_operate_on resolved_ph) st0

/-- The code after the per-file loop: gate the pull request on whether
any file write reported success, then finalize the per-repository
result. -/
def update_after_loop (h : Host) (cfg : UpdateActionConfig) (repo_info : Repository)
    (branch_to_operate_on : String) (st : UpdLoopState) : ActionResult :=
  let log1 := st.log ++ ["---"]
  if st.anyUpdated = false then
    { repo := repo_info.name, success := st.allOps,
      message := joinLines (log1 ++
        ["- INFO: No files were actually changed in this repository. No PR will be created."]),
      pr_url := Option.none }
  else
    let final_pr_title := processOpt cfg.uf_pr_title_input st.lastPh
    let final_pr_body := processOpt cfg.uf_pr_body_input st.lastPh
    let t := pyShowOpt final_pr_title
    let d := repo_info.default_branch
    let log2 := log1 ++
      [s!"- INFO: Attempting to create PR from \x27{branch_to_operate_on}\x27 to \x27{d}\x27. Title: \x27{t}\x27"]
    let pr := create_pull_request h repo_info.full_name branch_to_operate_on
      repo_info.default_branch final_pr_title final_pr_body
    let prlog := if optStrTruthy pr.message then pr.message.getD ""
      else (if optStrTruthy pr.html_url then "Success"
        else "Failed/Already Exists with no new URL")
    let log3 := log2 ++ [s!"- INFO: PR creation: {prlog}"]
    let repo_overall_success := st.allOps && optStrTruthy pr.html_url
    let base := joinLines log3
    if st.allOps = false then
      { repo := repo_info.name, success := false,
        message := base ++ "\n- WARNING: One or more file operations failed. See logs above.",
        pr_url := pr.html_url }
    else if optStrTruthy pr.html_url = false ∧ optStrTruthy pr.message then
      let m := pr.message.getD ""
      { repo := repo_info.name, success := repo_overall_success,
        message := base ++ s!"\n- WARNING: File operations successful, but PR issue: {m}",
        pr_url := pr.html_url }
    else
      { repo := repo_info.name, success := repo_overall_success, message := base,
        pr_url := pr.html_url }

def updateRepoBody (h : Host) (defined_placeholders : List PhDef)
    (cfg : UpdateActionConfig) (timestamp_str : String) (repo_info : Repository) :
    ActionResult :=
  let is_single_file_mode := pyStrip (cfg.uf_file_path_input.getD "") ≠ ""
  let base_branch_name_action_part :=
    if is_single_file_mode then "update-file" else "update-files"
  let default_branch_name_template :=
    cfg.uf_branch_name_input.getD (base_branch_name_action_part ++ "-" ++ timestamp_str)
  let log0 := [update_header repo_info]
  match h.getRepoRes repo_info.full_name with
  | Except.error e =>
    { repo := repo_info.name, success := false,
      message := joinLines (log0 ++ [s!"- ERROR: Could not get repository object: {e.message}"]) }
  | Except.ok _ =>
    let rres := resolve_all_placeholders_for_repo h repo_info defined_placeholders
      timestamp_str
    let resolved_ph := rres.1
    let log1 := log0 ++ rres.2.1
    if rres.2.2 = false then
      { repo := repo_info.name, success := false, message := joinLines log1 }
    else
      -- the prepared `current_action_params_for_processing` dict of the
      -- source is dead code at this point and is not modelled
      match updateLocate h cfg repo_info resolved_ph log1 with
      | Except.error r => r
      | Except.ok (target_files_to_process, log2) =>
        if target_files_to_process = [] then
          { repo := repo_info.name, success := true,
            message := joinLines (log2 ++
              ["- INFO: No files to process after resolving paths/filters. Skipping repo."]) }
        else
          let branch_name_params : List (String × Option String) :=
            [("branch_name", some default_branch_name_template)]
          let resolved_branch_ph_copy := ddel resolved_ph "file_path"
          let bres := process_action_params branch_name_params resolved_branch_ph_copy
            ["branch_name"]
          let log3 := log2 ++ bres.2
          let tbs := (pgetD bres.1 "branch_name" (some default_branch_name_template)).getD
            default_branch_name_template
          let useFallback := pyStrip tbs = ""
          let target_branch :=
            if useFallback then base_branch_name_action_part ++ "-fallback-" ++ timestamp_str
            else tbs
          let log4 :=
            if useFallback then
              log3 ++ [s!"- INFO: Target branch name resolved to empty, defaulted to \x27{target_branch}\x27."]
            else log3
          -- branch ensure; only `repo_api.get_git_ref` sits in the try here
          let afterBranch : Except (List String) (List String) :=
            match h.getGitRef repo_info.full_name ("heads/" ++ target_branch) with
            | Except.ok _ => Except.ok (log4 ++ [branch_existing_msg target_branch])
            | Except.error e =>
              if e.unknownObj then
                let log5 := log4 ++ [branch_missing_msg target_branch repo_info.default_branch]
                let bores := create_branch h repo_info.full_name target_branch
                  repo_info.default_branch
                let m := pyShowOpt bores.message
                let log6 := log5 ++ [branch_op_msg m]
                if bores.success = false then Except.error log6 else Except.ok log6
              else Except.error (log4 ++ [branch_check_fail_msg target_branch e.message])
          match afterBranch with
          | Except.error logE =>
            { repo := repo_info.name, success := false, message := joinLines logE }
          | Except.ok log7 =>
            let st0 : UpdLoopState :=
              { anyUpdated := false, allOps := true, log := log7, lastPh := resolved_ph }
            let st := update_files_fold h cfg repo_info target_branch resolved_ph st0
              target_files_to_process
            update_after_loop h cfg repo_info target_branch st

def updateGo (h : Host) (defs : List PhDef) (cfg : UpdateActionConfig) (ts : String)
    (acc : List ActionResult) : List Repository → List ActionResult
  | [] => acc
  | r :: rest => updateGo h defs cfg ts (acc ++ [updateRepoBody h defs cfg ts r]) rest

def execute_update_file_action (h : Host) (selected_repo_infos : List Repository)
    (defined_placeholders : List PhDef) (action_config_from_form : UpdateActionConfig)
    (timestamp_str : String) : List ActionResult :=
  updateGo h defined_placeholders action_config_from_form timestamp_str [] selected_repo_infos

/-! ### Add executor -/

def add_header (repo : Repository) : String :=
  let f := repo.full_name
  let d := repo.default_branch
  s!"Action: Add New File on repo {f} (default branch: {d})"

/-- The branch phase of the Add executor.  `repo_api` is `None` while
`g.get_repo` itself raises; the `except UnknownObjectException` handler
then re-issues `g.get_repo`, whose (deterministic) re-raise escapes the
executor — that is the `Except.error` case. -/
def addEnsureBranch (h : Host) (repo_info : Repository) (target_branch : String)
    (log : List String) : Except GhExn (Except (List String) (List String)) :=
  let createPath : Except (List String) (List String) :=
    let log2 := log ++ [branch_missing_msg target_branch repo_info.default_branch]
    let bres := create_branch h repo_info.full_name target_branch repo_info.default_branch
    let m := pyShowOpt bres.message
    let log3 := log2 ++ [branch_op_msg m]
    if bres.success = false then Except.error log3 else Except.ok log3
  match h.getRepoRes repo_info.full_name with
  | Except.ok _ =>
    match h.getGitRef repo_info.full_name ("heads/" ++ target_branch) with
    | Except.ok _ => Except.ok (Except.ok (log ++ [branch_existing_msg target_branch]))
    | Except.error e =>
      if e.unknownObj then Except.ok createPath
      else Except.ok (Except.error (log ++ [branch_check_fail_msg target_branch e.message]))
  | Except.error e =>
    if e.unknownObj then
      -- handler logs, then `repo_api = g.get_repo(...)` re-raises
      match h.getRepoRes repo_info.full_name with
      | Except.error e2 => Except.error e2
      | Except.ok _ => Except.ok createPath
    else
      Except.ok (Except.error (log ++
        [s!"- ERROR: Could not get repository object for branch check. Original error: {e.message}"]))

def addRepoBody (h : Host) (defined_placeholders : List PhDef) (cfg : AddActionConfig)
    (timestamp_str : String) (repo_info : Repository) : Except GhExn ActionResult :=
  let default_branch_name_template :=
    cfg.anf_branch_name_input.getD ("add-file-" ++ timestamp_str)
  let log0 := [add_header repo_info]
  let rres := resolve_all_placeholders_for_repo h repo_info defined_placeholders
    timestamp_str
  let log1 := log0 ++ rres.2.1
  if rres.2.2 = false then
    Except.ok { repo := repo_info.name, success := false, message := joinLines log1 }
  else
    let params0 : List (String × Option String) :=
      [("file_path", cfg.anf_file_path_input), ("file_content", cfg.anf_file_content_area),
        ("branch_name", some default_branch_name_template),
        ("commit_message", cfg.anf_commit_message_input),
        ("pr_title", cfg.anf_pr_title_input), ("pr_body", cfg.anf_pr_body_input)]
    let pres := process_action_params params0 rres.1
      ["file_path", "file_content", "branch_name", "commit_message", "pr_title", "pr_body"]
    let processed_params := pres.1
    let log2 := log1 ++ pres.2
    let tfp := pgetD processed_params "file_path" (some "")
    let new_file_content := pgetD processed_params "file_content" (some "")
    let tb := pgetD processed_params "branch_name" (some default_branch_name_template)
    let useFallback := optStrTruthy tb = false ∨ pyStrip (tb.getD "") = ""
    let target_branch :=
      if useFallback then "add-file-fallback-" ++ timestamp_str else tb.getD ""
    let log3 :=
      if useFallback then
        log2 ++ [s!"- INFO: Target branch name was empty or invalid, defaulted to \x27{target_branch}\x27."]
      else log2
    if optStrTruthy tfp = false then
      Except.ok
        { repo := repo_info.name, success := false,
          message := joinLines (log3 ++ ["- ERROR: Processed file path is empty. Skipping repo."]) }
    else
      let target_file_path := tfp.getD ""
      match addEnsureBranch h repo_info target_branch log3 with
      | Except.error e => Except.error e
      | Except.ok (Except.error logE) =>
        Except.ok { repo := repo_info.name, success := false, message := joinLines logE }
      | Except.ok (Except.ok log4) =>
        -- `if repo_api is None:` re-fetch (lines 663-669) is unreachable
        -- here: every surviving path has a repository object
        let log5 := log4 ++
          [s!"- INFO: Attempting to add file \x27{target_file_path}\x27 on branch \x27{target_branch}\x27."]
        let ures := update_file h repo_info.full_name target_file_path
          (new_file_content.getD "") (pgetD processed_params "commit_message" Option.none)
          target_branch Option.none "Replace entire content" Option.none Option.none
          false true Option.none false
        if ures.success = false then
          let m := pyShowOpt ures.message
          Except.ok
            { repo := repo_info.name, success := false,
              message := joinLines (log5 ++
              [s!"- ERROR: Failed to add file \x27{target_file_path}\x27: {m}"]) }
        else
          let m := pyShowOpt ures.message
          let s := pyShowOpt ures.new_sha
          let log6 := log5 ++
            [s!"- SUCCESS: File \x27{target_file_path}\x27 added. {m} New SHA: {s}"]
          let pr := create_pull_request h repo_info.full_name target_branch
            repo_info.default_branch (pgetD processed_params "pr_title" Option.none)
            (pgetD processed_params "pr_body" Option.none)
          let prlog := if optStrTruthy pr.message then pr.message.getD ""
            else (if optStrTruthy pr.html_url then "Success"
              else "Failed/Already Exists with no new URL")
          let log7 := log6 ++ [s!"- INFO: PR creation: {prlog}"]
          let repo_overall_success := ures.success && optStrTruthy pr.html_url
          let base := joinLines log7
          if optStrTruthy pr.html_url = false ∧ optStrTruthy pr.message then
            let m2 := pr.message.getD ""
            Except.ok
              { repo := repo_info.name, success := repo_overall_success,
                message := base ++ s!"\n- WARNING: File add successful, but PR issue: {m2}",
                pr_url := pr.html_url }
          else
            Except.ok
              { repo := repo_info.name, success := repo_overall_success,
                message := base, pr_url := pr.html_url }

def addGo (h : Host) (defs : List PhDef) (cfg : AddActionConfig) (ts : String)
    (acc : List ActionResult) : List Repository → Except GhExn (List ActionResult)
  | [] => Except.ok acc
  | r :: rest =>
    match addRepoBody h defs cfg ts r with
    | Except.ok res => addGo h defs cfg ts (acc ++ [res]) rest
    | Except.error e => Except.error e

def execute_add_new_file_action (h : Host) (selected_repo_infos : List Repository)
    (defined_placeholders : List PhDef) (action_config_from_form : AddActionConfig)
    (timestamp_str : String) : Except GhExn (List ActionResult) :=
  addGo h defined_placeholders action_config_from_form timestamp_str [] selected_repo_infos

/-! ## Fixtures and theorems for the executor claims -/

def exceptOk {ε α : Type _} : Except ε α → Bool
  | Except.ok _ => true
  | Except.error _ => false

def repoNC : Repository :=
  { name := "r", full_name := "o/r", default_branch := "main" }

def repoNC2 : Repository :=
  { name := "r2", full_name := "o/r2", default_branch := "main" }

/-- Host whose pull-request creation answers 422 with a "No commits
between ..." validation error; every content fetch finds a file and
every write succeeds. -/
def hostNoCommits : Host :=
  { stubHost with
    getContents := fun _ _ _ => GetContentsRes.file "old" "sha1"
    createPull := fun _ _ _ _ _ =>
      Except.error
        { status := 422, message := "Validation Failed",
          errors := ["No commits between main and the head branch"],
          unknownObj := false } }

def cfgRmNC : RemoveActionConfig := { rf_file_path := some "f.txt" }

def cfgUpNC : UpdateActionConfig :=
  { uf_file_path_input := some "f.txt",
    uf_update_mode := some "Replace entire content",
    uf_file_content_area := some "new" }

def cfgAddNC : AddActionConfig :=
  { anf_file_path_input := some "g.txt", anf_file_content_area := some "c" }

/-- Host for the multi-file no-match scenario: the tree holds one text
file whose content does not contain the search string; pull-request
creation succeeds. -/
def hostC3 : Host :=
  { stubHost with
    getContents := fun _ _ _ => GetContentsRes.file "hello" "s1"
    getGitTree := fun _ _ => Except.ok [⟨"notes.txt", "blob"⟩]
    fnmatchFn := fun n p => n = "notes.txt" && p = "*.txt" }

def repoC3 : Repository :=
  { name := "r3", full_name := "o/r3", default_branch := "main" }

def cfgC3 : UpdateActionConfig :=
  { uf_update_mode := some "Search and replace string",
    uf_search_string_input := some "xyz",
    uf_replace_with_string_input := some "q",
    uf_filename_filter_input := some "*.txt" }

def cfgEmptyU : UpdateActionConfig := {}

def stC3w : UpdLoopState :=
  { anyUpdated := false, allOps := true, log := [], lastPh := [] }

/-- Host where `g.get_repo` always raises `UnknownObjectException`. -/
def hostUO : Host :=
  { stubHost with
    getRepoRes := fun _ =>
      Except.error { status := 404, message := "Not Found", unknownObj := true } }

def cfgAddUO : AddActionConfig := { anf_file_path_input := some "g.txt" }

/-- The Remove executor is the per-repository body mapped over the
input list. -/
theorem removeGo_eq (h : Host) (defs : List PhDef) (cfg : RemoveActionConfig)
    (ts : String) :
    ∀ (l : List Repository) (acc : List ActionResult),
      removeGo h defs cfg ts acc l = acc ++ l.map (removeRepoBody h defs cfg ts) := by
  intro l
  induction l with
  | nil => intro acc; simp [removeGo]
  | cons r rest ih =>
    intro acc
    have hstep : removeGo h defs cfg ts acc (r :: rest) =
        removeGo h defs cfg ts (acc ++ [removeRepoBody h defs cfg ts r]) rest := rfl
    rw [hstep, ih]
    simp

/-- The Update executor is the per-repository body mapped over the
input list. -/
theorem updateGo_eq (h : Host) (defs : List PhDef) (cfg : UpdateActionConfig)
    (ts : String) :
    ∀ (l : List Repository) (acc : List ActionResult),
      updateGo h defs cfg ts acc l = acc ++ l.map (updateRepoBody h defs cfg ts) := by
  intro l
  induction l with
  | nil => intro acc; simp [updateGo]
  | cons r rest ih =>
    intro acc
    have hstep : updateGo h defs cfg ts acc (r :: rest) =
        updateGo h defs cfg ts (acc ++ [updateRepoBody h defs cfg ts r]) rest := rfl
    rw [hstep, ih]
    simp

/-- When no per-repository body of the Add executor escapes with an
exception, the batch completes with one result per repository. -/
theorem addGo_ok_length (h : Host) (defs : List PhDef) (cfg : AddActionConfig)
    (ts : String) :
    ∀ (l : List Repository) (acc : List ActionResult),
      (∀ r ∈ l, exceptOk (addRepoBody h defs cfg ts r) = true) →
      ∃ rs, addGo h defs cfg ts acc l = Except.ok rs ∧
        rs.length = acc.length + l.length := by
  intro l
  induction l with
  | nil =>
    intro acc _
    exact ⟨acc, rfl, by simp [addGo]⟩
  | cons r rest ih =>
    intro acc hok
    have h1 : exceptOk (addRepoBody h defs cfg ts r) = true := hok r (by simp)
    cases heq : addRepoBody h defs cfg ts r with
    | error e =>
      rw [heq] at h1
      simp [exceptOk] at h1
    | ok res =>
      have hstep : addGo h defs cfg ts acc (r :: rest) =
          addGo h defs cfg ts (acc ++ [res]) rest := by
        show (match addRepoBody h defs cfg ts r with
          | Except.ok res2 => addGo h defs cfg ts (acc ++ [res2]) rest
          | Except.error e => Except.error e) = _
        rw [heq]
      obtain ⟨rs, hrs, hlen⟩ := ih (acc ++ [res]) (fun x hx => hok x (by simp [hx]))
      refine ⟨rs, by rw [hstep, hrs], ?_⟩
      simp only [List.length_append, List.length_cons, List.length_nil] at hlen ⊢
      omega

/-- C2: the spec (and the source's own comments) call a "no commits
between branches" pull-request response a successful no-op for every
executor, but only the Remove executor reports success there.  On a
host whose PR creation answers 422 "No commits between ...", with every
file operation succeeding, Remove yields success=true while Update and
Add yield success=false (all with no pr_url): the Update and Add
executors AND their success flag with `bool(pr_url)`
(src/action_processing.py lines 548 and 698), contradicting the
comments at lines 549-550 and 558. -/
theorem c2_no_commits_success_divergence :
    ((execute_remove_file_action hostNoCommits [repoNC] [] cfgRmNC "T").map
        (fun r => (r.success, r.pr_url)) = [(true, Option.none)]) ∧
    ((execute_update_file_action hostNoCommits [repoNC] [] cfgUpNC "T").map
        (fun r => (r.success, r.pr_url)) = [(false, Option.none)]) ∧
    (Except.map (fun rs => rs.map (fun r => (r.success, r.pr_url)))
        (execute_add_new_file_action hostNoCommits [repoNC] [] cfgAddNC "T") =
      Except.ok [(false, Option.none)]) :=
  ⟨rfl, rfl, rfl⟩

/-- C3 counterexample: in multi-file mode a search/replace that matches
nothing still reports a successful (no-op) write, so a pull request IS
attempted — the repository result ends with a PR URL, refuting "no pull
request is attempted".  The second conjunct records that the search
string does not occur in the file content. -/
theorem c3_nomatch_still_attempts_pr :
    ((execute_update_file_action hostC3 [repoC3] [] cfgC3 "T").map
        (fun r => (r.success, r.pr_url)) =
      [(true, some "https://example.test/pr/1")]) ∧
    pyReplace "hello" "xyz" "q" true = "hello" :=
  ⟨rfl, rfl⟩

/-- C3 (amended): the pull request is skipped exactly when no file
write REPORTED success (`any_file_updated_in_repo` stays false), not
when content is unchanged: in that case the repository result carries
no pr_url and its success flag equals the all-operations flag.  A
no-match search/replace still issues a write that reports success, so
it does not fall under this gate (see the counterexample). -/
theorem c3_no_pr_when_no_write_reported (h : Host) (cfg : UpdateActionConfig)
    (repo : Repository) (branch : String) (st : UpdLoopState)
    (hnone : st.anyUpdated = false) :
    (update_after_loop h cfg repo branch st).pr_url = Option.none ∧
    (update_after_loop h cfg repo branch st).success = st.allOps := by
  unfold update_after_loop
  rw [hnone]
  exact ⟨rfl, rfl⟩

theorem c3_no_pr_when_no_write_reported_witness :
    stC3w.anyUpdated = false ∧
    ((update_after_loop stubHost cfgEmptyU repoC3 "b" stC3w).pr_url = Option.none ∧
      (update_after_loop stubHost cfgEmptyU repoC3 "b" stC3w).success = stC3w.allOps) :=
  ⟨rfl, c3_no_pr_when_no_write_reported stubHost cfgEmptyU repoC3 "b" stC3w rfl⟩

/-- C9 counterexample: one repository's failure CAN prevent the
remaining repositories from being processed in the Add executor.  When
`g.get_repo` raises `UnknownObjectException`, the handler's re-issued
`g.get_repo` (src/action_processing.py line 644) raises out of the
executor: the batch aborts with no ActionResult for either repository,
refuting "exactly one ActionResult per input repository". -/
theorem c9_add_crash_drops_all_results :
    execute_add_new_file_action hostUO [repoNC, repoNC2] [] cfgAddUO "T" =
      Except.error { status := 404, message := "Not Found", unknownObj := true } :=
  rfl

/-- C9 (amended): the Remove and Update executors return exactly the
per-repository body mapped over the input list — one result per
repository, in input order, whatever each body returns; the Add
executor does so only when no per-repository body escapes with an
exception (otherwise the whole batch is lost, see the
counterexample). -/
theorem c9_one_result_per_repo (h : Host) (defs : List PhDef)
    (cfgR : RemoveActionConfig) (cfgU : UpdateActionConfig) (cfgA : AddActionConfig)
    (ts : String) (repos : List Repository)
    (hok : ∀ r ∈ repos, exceptOk (addRepoBody h defs cfgA ts r) = true) :
    execute_remove_file_action h repos defs cfgR ts =
      repos.map (removeRepoBody h defs cfgR ts) ∧
    execute_update_file_action h repos defs cfgU ts =
      repos.map (updateRepoBody h defs cfgU ts) ∧
    ∃ rs, execute_add_new_file_action h repos defs cfgA ts = Except.ok rs ∧
      rs.length = repos.length := by
  refine ⟨?_, ?_, ?_⟩
  · show removeGo h defs cfgR ts [] repos = _
    rw [removeGo_eq]
    simp
  · show updateGo h defs cfgU ts [] repos = _
    rw [updateGo_eq]
    simp
  · obtain ⟨rs, hrs, hlen⟩ := addGo_ok_length h defs cfgA ts repos [] hok
    exact ⟨rs, hrs, by simpa using hlen⟩

theorem c9_one_result_per_repo_witness :
    (∀ r ∈ [repoNC], exceptOk (addRepoBody hostNoCommits [] cfgAddNC "T" r) = true) ∧
    (execute_remove_file_action hostNoCommits [repoNC] [] cfgRmNC "T" =
        [repoNC].map (removeRepoBody hostNoCommits [] cfgRmNC "T") ∧
      execute_update_file_action hostNoCommits [repoNC] [] cfgUpNC "T" =
        [repoNC].map (updateRepoBody hostNoCommits [] cfgUpNC "T") ∧
      ∃ rs, execute_add_new_file_action hostNoCommits [repoNC] [] cfgAddNC "T" =
          Except.ok rs ∧ rs.length = [repoNC].length) :=
  have hok : ∀ r ∈ [repoNC], exceptOk (addRepoBody hostNoCommits [] cfgAddNC "T" r) = true := by
    intro r hr
    have hr2 : r = repoNC := by simpa using hr
    subst hr2
    rfl
  ⟨hok, c9_one_result_per_repo hostNoCommits [] cfgRmNC cfgUpNC cfgAddNC "T" [repoNC] hok⟩

end RepoTool
